import Mathlib

/-!
Shallow embedding of the ledger transaction engine of the repository
(api/services/carteira_service.py together with the repositories under
api/persistence/repositories/).  Monetary values (Python Decimal) are
embedded as exact rationals.  The SHA-256 digest (hashlib) is external
library code; it is embedded as an uninterpreted function field of the
configuration, since the engine only ever compares its output strings.
SQL tables are embedded as lists of row records; an UPDATE statement
patches every row matched by its WHERE clause and reports the matched
row count, and a SELECT ... fetchone returns the first matching row.
Python raise sites (ValueError / integrity faults) are embedded as the
constructors of an error type, one constructor per raise site, each
carrying the values interpolated into the Python message.
-/

namespace ProjetoBanco

/-- Row of the CARTEIRA table: address, digest of the private key and
status (the source uses the strings ATIVA and BLOQUEADA). -/
structure Carteira where
  endereco_carteira : String
  hash_chave_privada : String
  status : String
deriving DecidableEq, Repr

/-- Row of the MOEDA table (the engine reads only id_moeda and codigo). -/
structure Moeda where
  id_moeda : Nat
  codigo : String
deriving DecidableEq, Repr

/-- Row of the SALDO_CARTEIRA table, keyed by (endereco_carteira, id_moeda). -/
structure SaldoRow where
  endereco_carteira : String
  id_moeda : Nat
  saldo : ℚ
deriving DecidableEq, Repr

/-- Row of the DEPOSITO_SAQUE movement table. -/
structure DepositoSaque where
  endereco_carteira : String
  id_moeda : Nat
  tipo : String
  valor : ℚ
  taxa_valor : ℚ
deriving DecidableEq, Repr

/-- Row of the CONVERSAO movement table. -/
structure Conversao where
  endereco_carteira : String
  id_moeda_origem : Nat
  id_moeda_destino : Nat
  valor_origem : ℚ
  valor_destino : ℚ
  taxa_percentual : ℚ
  taxa_valor : ℚ
  cotacao_utilizada : ℚ
deriving DecidableEq, Repr

/-- Row of the TRANSFERENCIA movement table. -/
structure Transferencia where
  endereco_origem : String
  endereco_destino : String
  id_moeda : Nat
  valor : ℚ
  taxa_valor : ℚ
deriving DecidableEq, Repr

/-- The database state seen by the engine: one list of rows per table. -/
structure Estado where
  carteiras : List Carteira
  moedas : List Moeda
  saldos : List SaldoRow
  movimentos : List DepositoSaque
  conversoes : List Conversao
  transferencias : List Transferencia
deriving DecidableEq, Repr

instance instDecidableEqExcept {ε α : Type} [DecidableEq ε] [DecidableEq α] :
    DecidableEq (Except ε α) := fun a b =>
  match a, b with
  | .error x, .error y =>
    if h : x = y then .isTrue (by rw [h])
    else .isFalse (by intro hc; injection hc with h2; exact h h2)
  | .error _, .ok _ => .isFalse (by intro hc; exact Except.noConfusion hc)
  | .ok _, .error _ => .isFalse (by intro hc; exact Except.noConfusion hc)
  | .ok x, .ok y =>
    if h : x = y then .isTrue (by rw [h])
    else .isFalse (by intro hc; injection hc with h2; exact h h2)

/-- Configuration read once at service construction (CarteiraService init):
the three fee rates and the digest function.  sha256 stands for
hashlib.sha256(x.encode()).hexdigest(), an external library call the
engine uses only through string comparison. -/
structure Config where
  TAXA_SAQUE_PERCENTUAL : ℚ
  TAXA_CONVERSAO_PERCENTUAL : ℚ
  TAXA_TRANSFERENCIA_PERCENTUAL : ℚ
  sha256 : String → String

/-- One constructor per raise site of the embedded code, carrying the
values the Python message interpolates.  The Python message texts are
quoted (without accents) in the comments below. -/
inductive Erro where
  /-- Carteira com endereco ... nao encontrada ou inativa. -/
  | carteira_nao_encontrada_ou_inativa (endereco : String)
  /-- Moeda ... nao suportada. -/
  | moeda_nao_suportada (codigo : String)
  /-- Chave privada invalida ou carteira nao encontrada. -/
  | chave_invalida_ou_carteira_nao_encontrada
  /-- Saldo insuficiente. Necessario ... para sacar ... (incluindo taxa de ...). Saldo atual: ... -/
  | saldo_insuficiente_saque (necessario valor taxa saldo : ℚ)
  /-- Moeda nao suportada na conversao. -/
  | moeda_nao_suportada_conversao
  /-- Moedas de origem e destino devem ser diferentes. -/
  | moedas_iguais
  /-- Carteira inexistente ou bloqueada. -/
  | carteira_inexistente_ou_bloqueada
  /-- Chave privada invalida para a conversao. -/
  | chave_invalida_conversao
  /-- Saldo insuficiente na moeda ... Necessario ... (incluindo taxa). -/
  | saldo_insuficiente_conversao (codigo : String) (necessario : ℚ)
  /-- A carteira de origem e destino nao podem ser a mesma. -/
  | mesma_carteira
  /-- Moeda nao suportada: ... -/
  | moeda_nao_suportada_transferencia (codigo : String)
  /-- Carteira de origem nao encontrada ou inativa: ... -/
  | origem_nao_encontrada (endereco : String)
  /-- Carteira de destino nao encontrada ou inativa: ... -/
  | destino_nao_encontrada (endereco : String)
  /-- Chave privada nao encontrada para a carteira de origem ou carteira inativa. -/
  | chave_nao_encontrada_origem
  /-- Chave privada de origem invalida. -/
  | chave_origem_invalida
  /-- Saldo insuficiente na moeda ... Necessario ... (incluindo taxa). -/
  | saldo_insuficiente_transferencia (codigo : String) (necessario : ℚ)
  /-- Falha ao atualizar saldo. Carteira ou Moeda nao inicializada. -/
  | falha_atualizar_saldo
  /-- Falha ao debitar saldo de origem. ... -/
  | falha_debitar_origem (endereco : String)
  /-- Falha ao creditar saldo de destino. ... -/
  | falha_creditar_destino (endereco : String)
  /-- Primary-key violation on CARTEIRA (address created twice). -/
  | endereco_ja_existe (endereco : String)
deriving DecidableEq, Repr

/-! ### Balance store primitives (deposito_saque_repository.py) -/

/-- WHERE clause shared by every SALDO_CARTEIRA statement:
endereco_carteira = :endereco AND id_moeda = :id_moeda. -/
def mesma_chave (endereco : String) (idM : Nat) (r : SaldoRow) : Bool :=
  decide (r.endereco_carteira = endereco) && decide (r.id_moeda = idM)

/-- UPDATE SALDO_CARTEIRA SET saldo = saldo + :valor_operacional WHERE
endereco_carteira = :endereco AND id_moeda = :id_moeda.  Returns the new
table and the matched row count (SQLAlchemy result.rowcount). -/
def update_saldo (rows : List SaldoRow) (endereco : String) (idM : Nat) (delta : ℚ) :
    List SaldoRow × Nat :=
  (rows.map (fun r => if mesma_chave endereco idM r then { r with saldo := r.saldo + delta } else r),
   (rows.filter (mesma_chave endereco idM)).length)

/-- SELECT saldo FROM SALDO_CARTEIRA WHERE ... fetchone, as read by
buscar_saldo_disponivel: the stored amount of the first matching row, or
Decimal 0 when no row matches. -/
def ler_saldo (rows : List SaldoRow) (endereco : String) (idM : Nat) : ℚ :=
  ((rows.find? (mesma_chave endereco idM)).map SaldoRow.saldo).getD 0

/-- Whether a SALDO_CARTEIRA row exists for the pair. -/
def tem_linha (rows : List SaldoRow) (endereco : String) (idM : Nat) : Bool :=
  (rows.find? (mesma_chave endereco idM)).isSome

/-- DepositoSaqueRepository.get_id_moeda: SELECT id_moeda FROM MOEDA
WHERE codigo = :codigo, fetchone. -/
def get_id_moeda (s : Estado) (codigo_moeda : String) : Option Nat :=
  (s.moedas.find? (fun m => decide (m.codigo = codigo_moeda))).map Moeda.id_moeda

/-- DepositoSaqueRepository.verifica_carteira_existe: SELECT 1 FROM
CARTEIRA WHERE endereco_carteira = :endereco AND status = ATIVA. -/
def verifica_carteira_existe (s : Estado) (endereco : String) : Bool :=
  s.carteiras.any (fun c => decide (c.endereco_carteira = endereco) && decide (c.status = "ATIVA"))

/-- DepositoSaqueRepository.buscar_hash_privada_ativo: the stored digest
of an ATIVA wallet, or none. -/
def buscar_hash_privada_ativo (s : Estado) (endereco : String) : Option String :=
  (s.carteiras.find? (fun c => decide (c.endereco_carteira = endereco) && decide (c.status = "ATIVA"))).map
    Carteira.hash_chave_privada

/-- DepositoSaqueRepository.buscar_saldo_disponivel. -/
def buscar_saldo_disponivel (s : Estado) (endereco : String) (idM : Nat) : ℚ :=
  ler_saldo s.saldos endereco idM

/-- DepositoSaqueRepository.registrar_movimento_e_atualizar_saldo:
INSERT one DEPOSITO_SAQUE row, then the conditional balance UPDATE;
raises (rolling the unit back) when the UPDATE matches zero rows. -/
def registrar_movimento_e_atualizar_saldo (s : Estado) (endereco : String) (idM : Nat)
    (valor taxa_valor : ℚ) (tipo : String) (valor_operacional : ℚ) : Except Erro Estado :=
  let movimentos := s.movimentos ++ [⟨endereco, idM, tipo, valor, taxa_valor⟩]
  let upd := update_saldo s.saldos endereco idM valor_operacional
  if upd.2 = 0 then
    .error .falha_atualizar_saldo
  else
    .ok { s with movimentos := movimentos, saldos := upd.1 }

/-- ConversaoRepository.registrar_conversao_e_atualizar_saldos: INSERT
one CONVERSAO row, debit the source balance by valor_origem, credit the
destination balance by valor_destino.  Neither UPDATE checks its row
count (unlike the transfer repository). -/
def registrar_conversao_e_atualizar_saldos (s : Estado) (endereco : String)
    (id_origem id_destino : Nat) (valor_origem valor_destino taxa_percentual taxa_valor cotacao : ℚ) :
    Except Erro Estado :=
  let conversoes := s.conversoes ++
    [⟨endereco, id_origem, id_destino, valor_origem, valor_destino, taxa_percentual, taxa_valor, cotacao⟩]
  let upd1 := update_saldo s.saldos endereco id_origem (-valor_origem)
  let upd2 := update_saldo upd1.1 endereco id_destino valor_destino
  .ok { s with conversoes := conversoes, saldos := upd2.1 }

/-- TransferenciaRepository.registrar_transferencia_e_atualizar_saldos:
INSERT one TRANSFERENCIA row, debit origin by the full valor_transferido,
credit destination by valor_liquido_destino; each UPDATE raises when it
matches zero rows. -/
def registrar_transferencia_e_atualizar_saldos (s : Estado)
    (endereco_origem endereco_destino : String) (idM : Nat)
    (valor_transferido valor_liquido_destino taxa_valor : ℚ) : Except Erro Estado :=
  let transferencias := s.transferencias ++
    [⟨endereco_origem, endereco_destino, idM, valor_transferido, taxa_valor⟩]
  let upd1 := update_saldo s.saldos endereco_origem idM (-valor_transferido)
  if upd1.2 = 0 then
    .error (.falha_debitar_origem endereco_origem)
  else
    let upd2 := update_saldo upd1.1 endereco_destino idM valor_liquido_destino
    if upd2.2 = 0 then
      .error (.falha_creditar_destino endereco_destino)
    else
      .ok { s with transferencias := transferencias, saldos := upd2.1 }

/-- CarteiraRepository.criar_e_inicializar: INSERT the CARTEIRA row with
status ATIVA, then INSERT one zero SALDO_CARTEIRA row per MOEDA row.
The duplicate-address guard models the CARTEIRA primary key of the SQL
schema, which is not under src (the spec, section 3, fixes the address
as a unique identifier created once). -/
def criar_e_inicializar (s : Estado) (endereco hash_privada : String) : Except Erro Estado :=
  if s.carteiras.any (fun c => decide (c.endereco_carteira = endereco)) then
    .error (.endereco_ja_existe endereco)
  else
    .ok { s with
      carteiras := s.carteiras ++ [⟨endereco, hash_privada, "ATIVA"⟩],
      saldos := s.saldos ++ s.moedas.map (fun m => ⟨endereco, m.id_moeda, 0⟩) }

/-! ### Service operations (carteira_service.py)

Each operation returns the committed state on success; on any raise the
surrounding transaction rolls back, so an error result leaves the
committed state untouched (see aplicar_op below).  The Python guard
`if not id_moeda` is falsy both for None and for the integer 0, and is
embedded as such. -/

/-- CarteiraService.depositar. -/
def depositar (s : Estado) (endereco codigo_moeda : String) (valor : ℚ) :
    Except Erro Estado :=
  if ¬ verifica_carteira_existe s endereco then
    .error (.carteira_nao_encontrada_ou_inativa endereco)
  else
    match get_id_moeda s codigo_moeda with
    | none => .error (.moeda_nao_suportada codigo_moeda)
    | some idM =>
      if idM = 0 then .error (.moeda_nao_suportada codigo_moeda)
      else
        registrar_movimento_e_atualizar_saldo s endereco idM valor 0 "DEPOSITO" valor

/-- CarteiraService.sacar.  The stored digest may be absent (None); the
Python comparison stored != provided is then true, giving the single
generic message raise site. -/
def sacar (cfg : Config) (s : Estado) (endereco codigo_moeda : String) (valor : ℚ)
    (chave_privada : String) : Except Erro Estado :=
  if ¬ verifica_carteira_existe s endereco then
    .error (.carteira_nao_encontrada_ou_inativa endereco)
  else
    match get_id_moeda s codigo_moeda with
    | none => .error (.moeda_nao_suportada codigo_moeda)
    | some idM =>
      if idM = 0 then .error (.moeda_nao_suportada codigo_moeda)
      else
        if buscar_hash_privada_ativo s endereco ≠ some (cfg.sha256 chave_privada) then
          .error .chave_invalida_ou_carteira_nao_encontrada
        else
          let taxa_valor := valor * cfg.TAXA_SAQUE_PERCENTUAL
          let valor_total_debito := valor + taxa_valor
          let saldo_atual := buscar_saldo_disponivel s endereco idM
          if saldo_atual < valor_total_debito then
            .error (.saldo_insuficiente_saque valor_total_debito valor taxa_valor saldo_atual)
          else
            registrar_movimento_e_atualizar_saldo s endereco idM valor taxa_valor "SAQUE"
              (-valor_total_debito)

/-- CarteiraService.converter_moeda.  The exchange rate is fetched from
the Coinbase quote provider before the transaction opens; the parameter
cotacao_utilizada stands for a successfully fetched rate.  The Python
guard `if not hash_privada_bd` is falsy for None and for the empty
string, and is embedded as such. -/
def converter_moeda (cfg : Config) (s : Estado)
    (endereco codigo_moeda_origem codigo_moeda_destino : String) (valor_origem : ℚ)
    (chave_privada : String) (cotacao_utilizada : ℚ) : Except Erro Estado :=
  match get_id_moeda s codigo_moeda_origem, get_id_moeda s codigo_moeda_destino with
  | some id_origem, some id_destino =>
    if id_origem = 0 ∨ id_destino = 0 then .error .moeda_nao_suportada_conversao
    else if codigo_moeda_origem = codigo_moeda_destino then .error .moedas_iguais
    else
      match buscar_hash_privada_ativo s endereco with
      | none => .error .carteira_inexistente_ou_bloqueada
      | some hash_privada_bd =>
        if hash_privada_bd = "" then .error .carteira_inexistente_ou_bloqueada
        else if cfg.sha256 chave_privada ≠ hash_privada_bd then
          .error .chave_invalida_conversao
        else
          let taxa_percentual := cfg.TAXA_CONVERSAO_PERCENTUAL
          let taxa_valor := valor_origem * taxa_percentual
          let valor_origem_liquido := valor_origem - taxa_valor
          let valor_destino := valor_origem_liquido * cotacao_utilizada
          let saldo_atual := buscar_saldo_disponivel s endereco id_origem
          if saldo_atual < valor_origem then
            .error (.saldo_insuficiente_conversao codigo_moeda_origem valor_origem)
          else
            registrar_conversao_e_atualizar_saldos s endereco id_origem id_destino
              valor_origem valor_destino taxa_percentual taxa_valor cotacao_utilizada
  | _, _ => .error .moeda_nao_suportada_conversao

/-- CarteiraService.transferir_moeda. -/
def transferir_moeda (cfg : Config) (s : Estado)
    (endereco_origem endereco_destino codigo_moeda : String) (valor_transferencia : ℚ)
    (chave_privada : String) : Except Erro Estado :=
  if endereco_origem = endereco_destino then .error .mesma_carteira
  else
    match get_id_moeda s codigo_moeda with
    | none => .error (.moeda_nao_suportada_transferencia codigo_moeda)
    | some idM =>
      if ¬ verifica_carteira_existe s endereco_origem then
        .error (.origem_nao_encontrada endereco_origem)
      else if ¬ verifica_carteira_existe s endereco_destino then
        .error (.destino_nao_encontrada endereco_destino)
      else
        match buscar_hash_privada_ativo s endereco_origem with
        | none => .error .chave_nao_encontrada_origem
        | some hash_privada_bd =>
          if cfg.sha256 chave_privada ≠ hash_privada_bd then
            .error .chave_origem_invalida
          else
            let taxa_valor := valor_transferencia * cfg.TAXA_TRANSFERENCIA_PERCENTUAL
            let valor_total_debito := valor_transferencia + taxa_valor
            let valor_liquido_destino := valor_transferencia
            let saldo_atual := buscar_saldo_disponivel s endereco_origem idM
            if saldo_atual < valor_total_debito then
              .error (.saldo_insuficiente_transferencia codigo_moeda valor_total_debito)
            else
              registrar_transferencia_e_atualizar_saldos s endereco_origem endereco_destino idM
                valor_total_debito valor_liquido_destino taxa_valor

/-! ### Operation sequences -/

/-- One engine operation, with its validated request parameters.  For a
conversion the rate obtained from the quote provider is part of the
operation. -/
inductive Op where
  | criar (endereco hash_privada : String)
  | depositar (endereco codigo : String) (valor : ℚ)
  | sacar (endereco codigo : String) (valor : ℚ) (chave : String)
  | converter (endereco codigo_origem codigo_destino : String) (valor : ℚ) (chave : String)
      (cotacao : ℚ)
  | transferir (endereco_origem endereco_destino codigo : String) (valor : ℚ) (chave : String)
deriving DecidableEq, Repr

/-- Run one operation against the committed state. -/
def exec_op (cfg : Config) (s : Estado) : Op → Except Erro Estado
  | .criar e h => criar_e_inicializar s e h
  | .depositar e c v => depositar s e c v
  | .sacar e c v k => sacar cfg s e c v k
  | .converter e cO cD v k cot => converter_moeda cfg s e cO cD v k cot
  | .transferir eO eD c v k => transferir_moeda cfg s eO eD c v k

/-- Committed state after one operation: on success the new state, on a
raise the transaction rolls back and the committed state is unchanged. -/
def aplicar_op (cfg : Config) (s : Estado) (op : Op) : Estado :=
  match exec_op cfg s op with
  | .ok s2 => s2
  | .error _ => s

/-- Committed state after a sequence of operations. -/
def aplicar_ops (cfg : Config) (s : Estado) (ops : List Op) : Estado :=
  ops.foldl (aplicar_op cfg) s

/-! ### Lemmas about the balance store -/

/-- Key of a SALDO_CARTEIRA row. -/
def chave_saldo (r : SaldoRow) : String × Nat := (r.endereco_carteira, r.id_moeda)

lemma mesma_chave_iff (e : String) (idM : Nat) (r : SaldoRow) :
    mesma_chave e idM r = true ↔ r.endereco_carteira = e ∧ r.id_moeda = idM := by
  simp [mesma_chave]

/-- The patched form of one row inside update_saldo. -/
def patch_saldo (e : String) (idM : Nat) (δ : ℚ) (r : SaldoRow) : SaldoRow :=
  if mesma_chave e idM r then { r with saldo := r.saldo + δ } else r

lemma update_saldo_fst (rows : List SaldoRow) (e : String) (idM : Nat) (δ : ℚ) :
    (update_saldo rows e idM δ).1 = rows.map (patch_saldo e idM δ) := rfl

lemma update_saldo_fst_cons (r : SaldoRow) (t : List SaldoRow) (e : String) (idM : Nat) (δ : ℚ) :
    (update_saldo (r :: t) e idM δ).1 =
      patch_saldo e idM δ r :: (update_saldo t e idM δ).1 := rfl

/-- The row patch applied by update_saldo does not change the key of a row. -/
lemma mesma_chave_patch (e : String) (idM : Nat) (δ : ℚ) (e2 : String) (id2 : Nat) (r : SaldoRow) :
    mesma_chave e2 id2 (patch_saldo e idM δ r) = mesma_chave e2 id2 r := by
  by_cases h : mesma_chave e idM r = true
  · rw [patch_saldo, if_pos h]
    simp [mesma_chave]
  · rw [patch_saldo, if_neg h]

lemma chave_saldo_patch (e : String) (idM : Nat) (δ : ℚ) (r : SaldoRow) :
    chave_saldo (patch_saldo e idM δ r) = chave_saldo r := by
  by_cases h : mesma_chave e idM r = true
  · rw [patch_saldo, if_pos h]
    simp [chave_saldo]
  · rw [patch_saldo, if_neg h]

lemma saldo_patch_pos (e : String) (idM : Nat) (δ : ℚ) (r : SaldoRow)
    (h : mesma_chave e idM r = true) : (patch_saldo e idM δ r).saldo = r.saldo + δ := by
  rw [patch_saldo, if_pos h]

lemma patch_neg (e : String) (idM : Nat) (δ : ℚ) (r : SaldoRow)
    (h : ¬ mesma_chave e idM r = true) : patch_saldo e idM δ r = r := by
  rw [patch_saldo, if_neg h]

/-- update_saldo leaves the list of row keys unchanged. -/
lemma update_saldo_map_chave (rows : List SaldoRow) (e : String) (idM : Nat) (δ : ℚ) :
    (update_saldo rows e idM δ).1.map chave_saldo = rows.map chave_saldo := by
  induction rows with
  | nil => rfl
  | cons r t ih =>
    rw [update_saldo_fst_cons, List.map_cons, List.map_cons, chave_saldo_patch, ih]

/-- Reading the updated pair after an update on an existing row sees the delta. -/
lemma ler_saldo_update_self (rows : List SaldoRow) (e : String) (idM : Nat) (δ : ℚ)
    (h : tem_linha rows e idM = true) :
    ler_saldo (update_saldo rows e idM δ).1 e idM = ler_saldo rows e idM + δ := by
  induction rows with
  | nil => simp [tem_linha] at h
  | cons r t ih =>
    by_cases hr : mesma_chave e idM r = true
    · have hp : mesma_chave e idM (patch_saldo e idM δ r) = true := by
        rw [mesma_chave_patch]; exact hr
      rw [update_saldo_fst_cons, ler_saldo, List.find?_cons_of_pos _ hp,
        ler_saldo, List.find?_cons_of_pos _ hr]
      simp [saldo_patch_pos e idM δ r hr]
    · have hp : ¬ mesma_chave e idM (patch_saldo e idM δ r) = true := by
        rw [mesma_chave_patch]; exact hr
      have h' : tem_linha t e idM = true := by
        rw [tem_linha, List.find?_cons_of_neg _ hr] at h
        exact h
      rw [update_saldo_fst_cons, ler_saldo, List.find?_cons_of_neg _ hp,
        ler_saldo, List.find?_cons_of_neg _ hr]
      exact ih h'

/-- Reading any other pair is unaffected by an update. -/
lemma ler_saldo_update_other (rows : List SaldoRow) (e : String) (idM : Nat) (δ : ℚ)
    (e2 : String) (id2 : Nat) (h : ¬ (e2 = e ∧ id2 = idM)) :
    ler_saldo (update_saldo rows e idM δ).1 e2 id2 = ler_saldo rows e2 id2 := by
  induction rows with
  | nil => rfl
  | cons r t ih =>
    by_cases hr : mesma_chave e2 id2 r = true
    · have hne : ¬ mesma_chave e idM r = true := by
        intro ht
        rcases (mesma_chave_iff e2 id2 r).1 hr with ⟨h1, h2⟩
        rcases (mesma_chave_iff e idM r).1 ht with ⟨h3, h4⟩
        exact h ⟨h1.symm.trans h3, h2.symm.trans h4⟩
      have hp : mesma_chave e2 id2 (patch_saldo e idM δ r) = true := by
        rw [mesma_chave_patch]; exact hr
      rw [update_saldo_fst_cons, ler_saldo, List.find?_cons_of_pos _ hp,
        ler_saldo, List.find?_cons_of_pos _ hr, patch_neg e idM δ r hne]
    · have hp : ¬ mesma_chave e2 id2 (patch_saldo e idM δ r) = true := by
        rw [mesma_chave_patch]; exact hr
      rw [update_saldo_fst_cons, ler_saldo, List.find?_cons_of_neg _ hp,
        ler_saldo, List.find?_cons_of_neg _ hr]
      exact ih

/-- The UPDATE matches zero rows exactly when the pair has no row. -/
lemma rowcount_eq_zero_iff (rows : List SaldoRow) (e : String) (idM : Nat) (δ : ℚ) :
    (update_saldo rows e idM δ).2 = 0 ↔ tem_linha rows e idM = false := by
  constructor
  · intro h0
    have hall : ∀ a ∈ rows, ¬ mesma_chave e idM a = true := by
      have hn : rows.filter (mesma_chave e idM) = [] :=
        List.length_eq_zero.mp (by simpa [update_saldo] using h0)
      intro a ha hma
      have : a ∈ rows.filter (mesma_chave e idM) := List.mem_filter.mpr ⟨ha, hma⟩
      rw [hn] at this
      cases this
    rw [tem_linha, List.find?_eq_none.mpr hall]
    rfl
  · intro h
    have hnone : rows.find? (mesma_chave e idM) = none := by
      rcases hfind : rows.find? (mesma_chave e idM) with _ | r
      · rfl
      · rw [tem_linha, hfind] at h
        cases h
    have hall : ∀ a ∈ rows, ¬ mesma_chave e idM a = true := List.find?_eq_none.mp hnone
    have : rows.filter (mesma_chave e idM) = [] := List.filter_eq_nil_iff.mpr hall
    simp [update_saldo, this]

/-- Row existence for any pair is unaffected by an update. -/
lemma tem_linha_update (rows : List SaldoRow) (e : String) (idM : Nat) (δ : ℚ)
    (e2 : String) (id2 : Nat) :
    tem_linha (update_saldo rows e idM δ).1 e2 id2 = tem_linha rows e2 id2 := by
  induction rows with
  | nil => rfl
  | cons r t ih =>
    by_cases hr : mesma_chave e2 id2 r = true
    · have hp : mesma_chave e2 id2 (patch_saldo e idM δ r) = true := by
        rw [mesma_chave_patch]; exact hr
      rw [update_saldo_fst_cons, tem_linha, List.find?_cons_of_pos _ hp,
        tem_linha, List.find?_cons_of_pos _ hr]
      rfl
    · have hp : ¬ mesma_chave e2 id2 (patch_saldo e idM δ r) = true := by
        rw [mesma_chave_patch]; exact hr
      rw [update_saldo_fst_cons, tem_linha, List.find?_cons_of_neg _ hp,
        tem_linha, List.find?_cons_of_neg _ hr]
      exact ih

/-- With pairwise-distinct keys, any row matching the key is the row found. -/
lemma find?_eq_of_nodup (rows : List SaldoRow) (e : String) (idM : Nat)
    (hnd : (rows.map chave_saldo).Nodup) (r : SaldoRow) (hr : r ∈ rows)
    (hm : mesma_chave e idM r = true) :
    rows.find? (mesma_chave e idM) = some r := by
  induction rows with
  | nil => cases hr
  | cons a t ih =>
    rw [List.map_cons] at hnd
    rcases List.nodup_cons.1 hnd with ⟨ha, ht⟩
    by_cases hma : mesma_chave e idM a = true
    · rcases List.mem_cons.1 hr with rfl | hrt
      · exact List.find?_cons_of_pos _ hma
      · exfalso
        apply ha
        have h1 := (mesma_chave_iff e idM a).1 hma
        have h2 := (mesma_chave_iff e idM r).1 hm
        have hc : chave_saldo a = chave_saldo r := by
          simp [chave_saldo, h1.1, h1.2, h2.1, h2.2]
        exact hc ▸ List.mem_map_of_mem chave_saldo hrt
    · rcases List.mem_cons.1 hr with rfl | hrt
      · exact absurd hm hma
      · rw [List.find?_cons_of_neg _ hma]
        exact ih ht hrt

/-- A guarded debit/credit on a table with distinct keys keeps every row
non-negative, provided the read value plus the delta is non-negative. -/
lemma update_saldo_nonneg (rows : List SaldoRow) (e : String) (idM : Nat) (δ : ℚ)
    (hnd : (rows.map chave_saldo).Nodup)
    (hpos : ∀ r ∈ rows, 0 ≤ r.saldo)
    (hδ : 0 ≤ ler_saldo rows e idM + δ) :
    ∀ r ∈ (update_saldo rows e idM δ).1, 0 ≤ r.saldo := by
  intro r' hr'
  rw [update_saldo_fst] at hr'
  rcases List.mem_map.1 hr' with ⟨r, hr, rfl⟩
  by_cases h : mesma_chave e idM r = true
  · have hfind := find?_eq_of_nodup rows e idM hnd r hr h
    rw [ler_saldo, hfind] at hδ
    rw [saldo_patch_pos e idM δ r h]
    simpa using hδ
  · rw [patch_neg e idM δ r h]
    exact hpos r hr

/-- Crediting a non-negative delta keeps every row non-negative. -/
lemma update_saldo_nonneg_of_delta (rows : List SaldoRow) (e : String) (idM : Nat) (δ : ℚ)
    (hδ : 0 ≤ δ) (hpos : ∀ r ∈ rows, 0 ≤ r.saldo) :
    ∀ r ∈ (update_saldo rows e idM δ).1, 0 ≤ r.saldo := by
  intro r' hr'
  rw [update_saldo_fst] at hr'
  rcases List.mem_map.1 hr' with ⟨r, hr, rfl⟩
  by_cases h : mesma_chave e idM r = true
  · have hp := hpos r hr
    rw [saldo_patch_pos e idM δ r h]
    linarith
  · rw [patch_neg e idM δ r h]
    exact hpos r hr

/-! ### Success-path characterizations of the operations -/

lemma registrar_mov_ok (s : Estado) (e : String) (idM : Nat) (v t : ℚ) (tp : String) (vop : ℚ)
    (hrow : tem_linha s.saldos e idM = true) :
    registrar_movimento_e_atualizar_saldo s e idM v t tp vop =
      .ok { s with movimentos := s.movimentos ++ [⟨e, idM, tp, v, t⟩],
                   saldos := (update_saldo s.saldos e idM vop).1 } := by
  have hnz : ¬ (update_saldo s.saldos e idM vop).2 = 0 := by
    intro h0
    rw [(rowcount_eq_zero_iff s.saldos e idM vop).1 h0] at hrow
    cases hrow
  simp only [registrar_movimento_e_atualizar_saldo, if_neg hnz]

lemma registrar_mov_falha (s : Estado) (e : String) (idM : Nat) (v t : ℚ) (tp : String) (vop : ℚ)
    (hrow : tem_linha s.saldos e idM = false) :
    registrar_movimento_e_atualizar_saldo s e idM v t tp vop = .error .falha_atualizar_saldo := by
  have hz : (update_saldo s.saldos e idM vop).2 = 0 :=
    (rowcount_eq_zero_iff s.saldos e idM vop).2 hrow
  simp only [registrar_movimento_e_atualizar_saldo, if_pos hz]

lemma depositar_spec (s : Estado) (e cod : String) (v : ℚ) (idM : Nat)
    (hcart : verifica_carteira_existe s e = true)
    (hid : get_id_moeda s cod = some idM) (hid0 : idM ≠ 0)
    (hrow : tem_linha s.saldos e idM = true) :
    depositar s e cod v =
      .ok { s with movimentos := s.movimentos ++ [⟨e, idM, "DEPOSITO", v, 0⟩],
                   saldos := (update_saldo s.saldos e idM v).1 } := by
  rw [depositar, if_neg (not_not_intro hcart), hid]
  simp only [if_neg hid0]
  exact registrar_mov_ok s e idM v 0 "DEPOSITO" v hrow

lemma sacar_spec (cfg : Config) (s : Estado) (e cod : String) (v : ℚ) (chave : String) (idM : Nat)
    (hcart : verifica_carteira_existe s e = true)
    (hid : get_id_moeda s cod = some idM) (hid0 : idM ≠ 0)
    (hauth : buscar_hash_privada_ativo s e = some (cfg.sha256 chave))
    (hsaldo : v + v * cfg.TAXA_SAQUE_PERCENTUAL ≤ buscar_saldo_disponivel s e idM)
    (hrow : tem_linha s.saldos e idM = true) :
    sacar cfg s e cod v chave =
      .ok { s with
        movimentos := s.movimentos ++ [⟨e, idM, "SAQUE", v, v * cfg.TAXA_SAQUE_PERCENTUAL⟩],
        saldos := (update_saldo s.saldos e idM (-(v + v * cfg.TAXA_SAQUE_PERCENTUAL))).1 } := by
  have hnotlt : ¬ buscar_saldo_disponivel s e idM < v + v * cfg.TAXA_SAQUE_PERCENTUAL :=
    not_lt.mpr hsaldo
  rw [sacar, if_neg (not_not_intro hcart), hid]
  simp only [if_neg hid0, hauth, ne_eq, not_true_eq_false, if_false, if_neg hnotlt,
    if_neg (by simp : ¬ ¬ some (cfg.sha256 chave) = some (cfg.sha256 chave))]
  exact registrar_mov_ok s e idM v (v * cfg.TAXA_SAQUE_PERCENTUAL) "SAQUE"
    (-(v + v * cfg.TAXA_SAQUE_PERCENTUAL)) hrow

lemma converter_spec (cfg : Config) (s : Estado) (e cO cD : String) (v : ℚ) (chave : String)
    (cot : ℚ) (idO idD : Nat)
    (hO : get_id_moeda s cO = some idO) (hD : get_id_moeda s cD = some idD)
    (h0 : ¬ (idO = 0 ∨ idD = 0))
    (hcod : ¬ cO = cD)
    (hbd : buscar_hash_privada_ativo s e = some (cfg.sha256 chave))
    (hbd0 : ¬ cfg.sha256 chave = "")
    (hsaldo : v ≤ buscar_saldo_disponivel s e idO) :
    converter_moeda cfg s e cO cD v chave cot =
      .ok { s with
        conversoes := s.conversoes ++
          [⟨e, idO, idD, v, (v - v * cfg.TAXA_CONVERSAO_PERCENTUAL) * cot,
            cfg.TAXA_CONVERSAO_PERCENTUAL, v * cfg.TAXA_CONVERSAO_PERCENTUAL, cot⟩],
        saldos := (update_saldo (update_saldo s.saldos e idO (-v)).1 e idD
          ((v - v * cfg.TAXA_CONVERSAO_PERCENTUAL) * cot)).1 } := by
  have hnotlt : ¬ buscar_saldo_disponivel s e idO < v := not_lt.mpr hsaldo
  rw [converter_moeda, hO, hD]
  simp only [if_neg h0, if_neg hcod, hbd]
  simp only [if_neg hbd0, ne_eq, not_true_eq_false, if_false,
    if_neg (not_not_intro (rfl : cfg.sha256 chave = cfg.sha256 chave)), if_neg hnotlt]
  rfl

lemma registrar_transf_ok (s : Estado) (eO eD : String) (idM : Nat)
    (vt vl tv : ℚ)
    (hrowO : tem_linha s.saldos eO idM = true)
    (hrowD : tem_linha s.saldos eD idM = true) :
    registrar_transferencia_e_atualizar_saldos s eO eD idM vt vl tv =
      .ok { s with
        transferencias := s.transferencias ++ [⟨eO, eD, idM, vt, tv⟩],
        saldos := (update_saldo (update_saldo s.saldos eO idM (-vt)).1 eD idM vl).1 } := by
  have h1 : ¬ (update_saldo s.saldos eO idM (-vt)).2 = 0 := by
    intro h0
    rw [(rowcount_eq_zero_iff s.saldos eO idM (-vt)).1 h0] at hrowO
    cases hrowO
  have hrowD2 : tem_linha (update_saldo s.saldos eO idM (-vt)).1 eD idM = true := by
    rw [tem_linha_update]
    exact hrowD
  have h2 : ¬ (update_saldo (update_saldo s.saldos eO idM (-vt)).1 eD idM vl).2 = 0 := by
    intro h0
    rw [(rowcount_eq_zero_iff _ eD idM vl).1 h0] at hrowD2
    cases hrowD2
  simp only [registrar_transferencia_e_atualizar_saldos, if_neg h1, if_neg h2]

lemma registrar_transf_falha_destino (s : Estado) (eO eD : String) (idM : Nat)
    (vt vl tv : ℚ)
    (hrowO : tem_linha s.saldos eO idM = true)
    (hrowD : tem_linha s.saldos eD idM = false) :
    registrar_transferencia_e_atualizar_saldos s eO eD idM vt vl tv =
      .error (.falha_creditar_destino eD) := by
  have h1 : ¬ (update_saldo s.saldos eO idM (-vt)).2 = 0 := by
    intro h0
    rw [(rowcount_eq_zero_iff s.saldos eO idM (-vt)).1 h0] at hrowO
    cases hrowO
  have hrowD2 : tem_linha (update_saldo s.saldos eO idM (-vt)).1 eD idM = false := by
    rw [tem_linha_update]
    exact hrowD
  have h2 : (update_saldo (update_saldo s.saldos eO idM (-vt)).1 eD idM vl).2 = 0 :=
    (rowcount_eq_zero_iff _ eD idM vl).2 hrowD2
  simp only [registrar_transferencia_e_atualizar_saldos, if_neg h1, if_pos h2]

lemma transferir_spec (cfg : Config) (s : Estado) (eO eD cod : String) (v : ℚ) (chave : String)
    (idM : Nat)
    (hne : ¬ eO = eD)
    (hid : get_id_moeda s cod = some idM)
    (hcO : verifica_carteira_existe s eO = true)
    (hcD : verifica_carteira_existe s eD = true)
    (hbd : buscar_hash_privada_ativo s eO = some (cfg.sha256 chave))
    (hsaldo : v + v * cfg.TAXA_TRANSFERENCIA_PERCENTUAL ≤ buscar_saldo_disponivel s eO idM)
    (hrowO : tem_linha s.saldos eO idM = true)
    (hrowD : tem_linha s.saldos eD idM = true) :
    transferir_moeda cfg s eO eD cod v chave =
      .ok { s with
        transferencias := s.transferencias ++
          [⟨eO, eD, idM, v + v * cfg.TAXA_TRANSFERENCIA_PERCENTUAL,
            v * cfg.TAXA_TRANSFERENCIA_PERCENTUAL⟩],
        saldos := (update_saldo (update_saldo s.saldos eO idM
          (-(v + v * cfg.TAXA_TRANSFERENCIA_PERCENTUAL))).1 eD idM v).1 } := by
  have hnotlt : ¬ buscar_saldo_disponivel s eO idM <
      v + v * cfg.TAXA_TRANSFERENCIA_PERCENTUAL := not_lt.mpr hsaldo
  rw [transferir_moeda, if_neg hne, hid]
  simp only [if_neg (not_not_intro hcO), if_neg (not_not_intro hcD), hbd,
    if_neg (not_not_intro (rfl : cfg.sha256 chave = cfg.sha256 chave)), ne_eq,
    not_true_eq_false, if_false, if_neg hnotlt]
  exact registrar_transf_ok s eO eD idM (v + v * cfg.TAXA_TRANSFERENCIA_PERCENTUAL) v
    (v * cfg.TAXA_TRANSFERENCIA_PERCENTUAL) hrowO hrowD

/-- A pair whose read balance is positive has a stored row (the read
defaults to zero when the row is absent). -/
lemma tem_linha_of_pos (rows : List SaldoRow) (e : String) (idM : Nat)
    (h : 0 < ler_saldo rows e idM) : tem_linha rows e idM = true := by
  rcases hfind : rows.find? (mesma_chave e idM) with _ | r
  · rw [ler_saldo, hfind] at h
    norm_num at h
  · rw [tem_linha, hfind]
    rfl

/-! ### Concrete instances used by the witnesses -/

/-- Configuration with the default fee rates of the source (.env defaults
0.01, 0.02 and 0.01); the digest function is instantiated by a concrete
function, the identity, which the engine only applies and compares. -/
def cfg_exemplo : Config :=
  { TAXA_SAQUE_PERCENTUAL := 1/100
    TAXA_CONVERSAO_PERCENTUAL := 1/50
    TAXA_TRANSFERENCIA_PERCENTUAL := 1/100
    sha256 := fun x => x }

/-- Two active wallets over two currencies; w1 holds 100 BTC. -/
def estado_exemplo : Estado :=
  { carteiras := [⟨"w1", "k1", "ATIVA"⟩, ⟨"w2", "k2", "ATIVA"⟩]
    moedas := [⟨1, "BTC"⟩, ⟨2, "ETH"⟩]
    saldos := [⟨"w1", 1, 100⟩, ⟨"w1", 2, 0⟩, ⟨"w2", 1, 0⟩, ⟨"w2", 2, 0⟩]
    movimentos := []
    conversoes := []
    transferencias := [] }

/-! ### C1 -/

/-- C1: every conversion that succeeds computes the fee as
valor_origem * TAXA_CONVERSAO_PERCENTUAL, debits the source balance by
exactly valor_origem (the fee is taken out of the debited amount), and
credits the destination balance of the same address by exactly
(valor_origem - fee) * cotacao, recording those amounts in the CONVERSAO
row.  The destination row exists, as wallet creation initializes one row
per known currency. -/
theorem conversao_debita_origem_credita_liquido
    (cfg : Config) (s : Estado) (e cO cD : String) (v : ℚ) (chave : String) (cot : ℚ)
    (idO idD : Nat)
    (hO : get_id_moeda s cO = some idO) (hD : get_id_moeda s cD = some idD)
    (h0 : ¬ (idO = 0 ∨ idD = 0)) (hcod : ¬ cO = cD)
    (hbd : buscar_hash_privada_ativo s e = some (cfg.sha256 chave))
    (hbd0 : ¬ cfg.sha256 chave = "")
    (hv : 0 < v)
    (hsaldo : v ≤ buscar_saldo_disponivel s e idO)
    (hidne : ¬ idO = idD)
    (hrowD : tem_linha s.saldos e idD = true) :
    ∃ s2, converter_moeda cfg s e cO cD v chave cot = .ok s2 ∧
      buscar_saldo_disponivel s2 e idO = buscar_saldo_disponivel s e idO - v ∧
      buscar_saldo_disponivel s2 e idD =
        buscar_saldo_disponivel s e idD + (v - v * cfg.TAXA_CONVERSAO_PERCENTUAL) * cot ∧
      s2.conversoes = s.conversoes ++
        [⟨e, idO, idD, v, (v - v * cfg.TAXA_CONVERSAO_PERCENTUAL) * cot,
          cfg.TAXA_CONVERSAO_PERCENTUAL, v * cfg.TAXA_CONVERSAO_PERCENTUAL, cot⟩] := by
  have hrowO : tem_linha s.saldos e idO = true :=
    tem_linha_of_pos s.saldos e idO (lt_of_lt_of_le hv hsaldo)
  refine ⟨_, converter_spec cfg s e cO cD v chave cot idO idD hO hD h0 hcod hbd hbd0 hsaldo,
    ?_, ?_, rfl⟩
  · show ler_saldo (update_saldo (update_saldo s.saldos e idO (-v)).1 e idD
      ((v - v * cfg.TAXA_CONVERSAO_PERCENTUAL) * cot)).1 e idO = ler_saldo s.saldos e idO - v
    rw [ler_saldo_update_other _ e idD _ e idO (fun h => hidne h.2),
      ler_saldo_update_self _ e idO (-v) hrowO]
    ring
  · show ler_saldo (update_saldo (update_saldo s.saldos e idO (-v)).1 e idD
      ((v - v * cfg.TAXA_CONVERSAO_PERCENTUAL) * cot)).1 e idD =
      ler_saldo s.saldos e idD + (v - v * cfg.TAXA_CONVERSAO_PERCENTUAL) * cot
    have hrowD2 : tem_linha (update_saldo s.saldos e idO (-v)).1 e idD = true := by
      rw [tem_linha_update]
      exact hrowD
    rw [ler_saldo_update_self _ e idD _ hrowD2,
      ler_saldo_update_other _ e idO (-v) e idD (fun h => hidne h.2.symm)]

/-- Witness for C1: the scenario of the spec, conversion of 100 BTC at rate
2 with fee rate 0.02 on a wallet holding 100: fee 2, source debit 100,
destination credit 196. -/
theorem conversao_debita_origem_credita_liquido_witness :
    ∃ s2, converter_moeda cfg_exemplo estado_exemplo "w1" "BTC" "ETH" 100 "k1" 2 = .ok s2 ∧
      buscar_saldo_disponivel s2 "w1" 1 = buscar_saldo_disponivel estado_exemplo "w1" 1 - 100 ∧
      buscar_saldo_disponivel s2 "w1" 2 = buscar_saldo_disponivel estado_exemplo "w1" 2 +
        (100 - 100 * cfg_exemplo.TAXA_CONVERSAO_PERCENTUAL) * 2 ∧
      s2.conversoes = estado_exemplo.conversoes ++
        [⟨"w1", 1, 2, 100, (100 - 100 * cfg_exemplo.TAXA_CONVERSAO_PERCENTUAL) * 2,
          cfg_exemplo.TAXA_CONVERSAO_PERCENTUAL, 100 * cfg_exemplo.TAXA_CONVERSAO_PERCENTUAL, 2⟩] :=
  conversao_debita_origem_credita_liquido cfg_exemplo estado_exemplo "w1" "BTC" "ETH" 100 "k1" 2
    1 2 (by decide) (by decide) (by decide) (by decide) (by decide) (by decide)
    (by norm_num) (by norm_num [buscar_saldo_disponivel, ler_saldo, estado_exemplo, mesma_chave])
    (by decide) (by decide)

/-! ### C2 -/

/-- C2: every withdrawal that succeeds charges an additive fee
valor * TAXA_SAQUE_PERCENTUAL: the balance of the pair decreases by
exactly valor * (1 + TAXA_SAQUE_PERCENTUAL), exactly (balances are exact
rationals), and the DEPOSITO_SAQUE row records the gross amount valor and
the fee. -/
theorem saque_taxa_aditiva
    (cfg : Config) (s : Estado) (e cod : String) (v : ℚ) (chave : String) (idM : Nat)
    (hcart : verifica_carteira_existe s e = true)
    (hid : get_id_moeda s cod = some idM) (hid0 : idM ≠ 0)
    (hauth : buscar_hash_privada_ativo s e = some (cfg.sha256 chave))
    (hsaldo : v + v * cfg.TAXA_SAQUE_PERCENTUAL ≤ buscar_saldo_disponivel s e idM)
    (hrow : tem_linha s.saldos e idM = true) :
    ∃ s2, sacar cfg s e cod v chave = .ok s2 ∧
      buscar_saldo_disponivel s2 e idM =
        buscar_saldo_disponivel s e idM - v * (1 + cfg.TAXA_SAQUE_PERCENTUAL) ∧
      s2.movimentos = s.movimentos ++ [⟨e, idM, "SAQUE", v, v * cfg.TAXA_SAQUE_PERCENTUAL⟩] := by
  refine ⟨_, sacar_spec cfg s e cod v chave idM hcart hid hid0 hauth hsaldo hrow, ?_, rfl⟩
  show ler_saldo (update_saldo s.saldos e idM (-(v + v * cfg.TAXA_SAQUE_PERCENTUAL))).1 e idM =
    ler_saldo s.saldos e idM - v * (1 + cfg.TAXA_SAQUE_PERCENTUAL)
  rw [ler_saldo_update_self _ e idM _ hrow]
  ring

/-- Witness for C2: the scenario of the spec, withdrawing 10 at fee rate
0.01 from a balance of 100 debits 10.10 and leaves 89.90. -/
theorem saque_taxa_aditiva_witness :
    ∃ s2, sacar cfg_exemplo estado_exemplo "w1" "BTC" 10 "k1" = .ok s2 ∧
      buscar_saldo_disponivel s2 "w1" 1 =
        buscar_saldo_disponivel estado_exemplo "w1" 1 -
          10 * (1 + cfg_exemplo.TAXA_SAQUE_PERCENTUAL) ∧
      s2.movimentos = estado_exemplo.movimentos ++
        [⟨"w1", 1, "SAQUE", 10, 10 * cfg_exemplo.TAXA_SAQUE_PERCENTUAL⟩] :=
  saque_taxa_aditiva cfg_exemplo estado_exemplo "w1" "BTC" 10 "k1" 1
    (by decide) (by decide) (by decide) (by decide)
    (by norm_num [buscar_saldo_disponivel, ler_saldo, estado_exemplo, mesma_chave, cfg_exemplo])
    (by decide)

/-! ### C3 (corrected: the general statement holds, but the concrete example
of the claim is wrong: transferring 50 at fee rate 0.01 from a balance of
100 leaves 49.50, not 48.50) -/



/-- C3 counterexample: on the stated scenario (transfer 50 at fee rate
0.01, origin balance 100, destination 0) the code commits and leaves the
origin with 49.50, refuting the claimed final balance 48.50. -/
theorem transferencia_cenario_contraexemplo :
    ∃ s2, transferir_moeda cfg_exemplo estado_exemplo "w1" "w2" "BTC" 50 "k1" = .ok s2 ∧
      buscar_saldo_disponivel s2 "w1" 1 = 99/2 ∧
      ¬ buscar_saldo_disponivel s2 "w1" 1 = 97/2 ∧
      buscar_saldo_disponivel s2 "w2" 1 = 50 := by
  have h100 : ler_saldo estado_exemplo.saldos "w1" 1 = 100 := rfl
  have h0 : ler_saldo estado_exemplo.saldos "w2" 1 = 0 := rfl
  have hrate : cfg_exemplo.TAXA_TRANSFERENCIA_PERCENTUAL = 1/100 := rfl
  refine ⟨_, transferir_spec cfg_exemplo estado_exemplo "w1" "w2" "BTC" 50 "k1" 1
      (by decide) (by decide) (by decide) (by decide) (by decide)
      (by norm_num [buscar_saldo_disponivel, h100, hrate]) (by decide) (by decide),
    ?_, ?_, ?_⟩
  · show ler_saldo (update_saldo (update_saldo estado_exemplo.saldos "w1" 1
      (-(50 + 50 * cfg_exemplo.TAXA_TRANSFERENCIA_PERCENTUAL))).1 "w2" 1 50).1 "w1" 1 = 99/2
    rw [ler_saldo_update_other _ "w2" 1 50 "w1" 1 (by decide),
      ler_saldo_update_self _ "w1" 1 _ (by decide), h100, hrate]
    norm_num
  · show ¬ ler_saldo (update_saldo (update_saldo estado_exemplo.saldos "w1" 1
      (-(50 + 50 * cfg_exemplo.TAXA_TRANSFERENCIA_PERCENTUAL))).1 "w2" 1 50).1 "w1" 1 = 97/2
    rw [ler_saldo_update_other _ "w2" 1 50 "w1" 1 (by decide),
      ler_saldo_update_self _ "w1" 1 _ (by decide), h100, hrate]
    norm_num
  · show ler_saldo (update_saldo (update_saldo estado_exemplo.saldos "w1" 1
      (-(50 + 50 * cfg_exemplo.TAXA_TRANSFERENCIA_PERCENTUAL))).1 "w2" 1 50).1 "w2" 1 = 50
    rw [ler_saldo_update_self _ "w2" 1 50 (by rw [tem_linha_update]; decide),
      ler_saldo_update_other _ "w1" 1 _ "w2" 1 (by decide), h0]
    norm_num

/-- C3 amended: every transfer that succeeds debits the origin by exactly
valor + valor * TAXA_TRANSFERENCIA_PERCENTUAL and credits the destination
by exactly valor (the destination never sees the fee); transferring 50 at
fee rate 0.01 from a balance of 100 to a balance of 0 leaves 49.50 and
50.00. -/
theorem transferencia_debita_origem_credita_destino
    (cfg : Config) (s : Estado) (eO eD cod : String) (v : ℚ) (chave : String) (idM : Nat)
    (hne : ¬ eO = eD)
    (hid : get_id_moeda s cod = some idM)
    (hcO : verifica_carteira_existe s eO = true)
    (hcD : verifica_carteira_existe s eD = true)
    (hbd : buscar_hash_privada_ativo s eO = some (cfg.sha256 chave))
    (hsaldo : v + v * cfg.TAXA_TRANSFERENCIA_PERCENTUAL ≤ buscar_saldo_disponivel s eO idM)
    (hrowO : tem_linha s.saldos eO idM = true)
    (hrowD : tem_linha s.saldos eD idM = true) :
    ∃ s2, transferir_moeda cfg s eO eD cod v chave = .ok s2 ∧
      buscar_saldo_disponivel s2 eO idM =
        buscar_saldo_disponivel s eO idM - (v + v * cfg.TAXA_TRANSFERENCIA_PERCENTUAL) ∧
      buscar_saldo_disponivel s2 eD idM = buscar_saldo_disponivel s eD idM + v := by
  refine ⟨_, transferir_spec cfg s eO eD cod v chave idM hne hid hcO hcD hbd hsaldo hrowO hrowD,
    ?_, ?_⟩
  · show ler_saldo (update_saldo (update_saldo s.saldos eO idM
      (-(v + v * cfg.TAXA_TRANSFERENCIA_PERCENTUAL))).1 eD idM v).1 eO idM =
      ler_saldo s.saldos eO idM - (v + v * cfg.TAXA_TRANSFERENCIA_PERCENTUAL)
    rw [ler_saldo_update_other _ eD idM v eO idM (fun h => hne h.1),
      ler_saldo_update_self _ eO idM _ hrowO]
    ring
  · show ler_saldo (update_saldo (update_saldo s.saldos eO idM
      (-(v + v * cfg.TAXA_TRANSFERENCIA_PERCENTUAL))).1 eD idM v).1 eD idM =
      ler_saldo s.saldos eD idM + v
    have hrowD2 : tem_linha (update_saldo s.saldos eO idM
        (-(v + v * cfg.TAXA_TRANSFERENCIA_PERCENTUAL))).1 eD idM = true := by
      rw [tem_linha_update]
      exact hrowD
    rw [ler_saldo_update_self _ eD idM v hrowD2,
      ler_saldo_update_other _ eO idM _ eD idM (fun h => hne h.1.symm)]

/-- Witness for the amended C3: transfer 50 at fee rate 0.01, origin 100,
destination 0: the origin loses 50.50 (leaving 49.50) and the destination
gains exactly 50. -/
theorem transferencia_debita_origem_credita_destino_witness :
    ∃ s2, transferir_moeda cfg_exemplo estado_exemplo "w1" "w2" "BTC" 50 "k1" = .ok s2 ∧
      buscar_saldo_disponivel s2 "w1" 1 =
        buscar_saldo_disponivel estado_exemplo "w1" 1 -
          (50 + 50 * cfg_exemplo.TAXA_TRANSFERENCIA_PERCENTUAL) ∧
      buscar_saldo_disponivel s2 "w2" 1 = buscar_saldo_disponivel estado_exemplo "w2" 1 + 50 :=
  transferencia_debita_origem_credita_destino cfg_exemplo estado_exemplo "w1" "w2" "BTC" 50 "k1"
    1 (by decide) (by decide) (by decide) (by decide) (by decide)
    (by norm_num [buscar_saldo_disponivel, ler_saldo, estado_exemplo, mesma_chave, cfg_exemplo])
    (by decide) (by decide)

/-! ### C8 -/

/-- C8: a deposit to an active address with a supported currency takes no
secret (depositar has no credential parameter), charges zero fee, records
a DEPOSITO_SAQUE row with taxa_valor 0 and valor equal to the amount, and
increases the balance by exactly the amount; repeating the same deposit is
not deduplicated: it appends a second identical row and increases the
balance by the amount again. -/
theorem deposito_sem_taxa_sem_deduplicacao
    (s : Estado) (e cod : String) (v : ℚ) (idM : Nat)
    (hcart : verifica_carteira_existe s e = true)
    (hid : get_id_moeda s cod = some idM) (hid0 : idM ≠ 0)
    (hrow : tem_linha s.saldos e idM = true)
    (hv : 0 < v) :
    ∃ s1 s2, depositar s e cod v = .ok s1 ∧
      buscar_saldo_disponivel s1 e idM = buscar_saldo_disponivel s e idM + v ∧
      s1.movimentos = s.movimentos ++ [⟨e, idM, "DEPOSITO", v, 0⟩] ∧
      depositar s1 e cod v = .ok s2 ∧
      buscar_saldo_disponivel s2 e idM = buscar_saldo_disponivel s e idM + v + v ∧
      s2.movimentos = s.movimentos ++
        [⟨e, idM, "DEPOSITO", v, 0⟩, ⟨e, idM, "DEPOSITO", v, 0⟩] := by
  have h1 := depositar_spec s e cod v idM hcart hid hid0 hrow
  set s1 : Estado :=
    { s with movimentos := s.movimentos ++ [⟨e, idM, "DEPOSITO", v, 0⟩],
             saldos := (update_saldo s.saldos e idM v).1 } with hs1
  have hrow1 : tem_linha s1.saldos e idM = true := by
    rw [hs1]
    show tem_linha (update_saldo s.saldos e idM v).1 e idM = true
    rw [tem_linha_update]
    exact hrow
  have h2 := depositar_spec s1 e cod v idM hcart hid hid0 hrow1
  refine ⟨s1, _, h1, ?_, rfl, h2, ?_, ?_⟩
  · show ler_saldo (update_saldo s.saldos e idM v).1 e idM = ler_saldo s.saldos e idM + v
    rw [ler_saldo_update_self _ e idM v hrow]
  · show ler_saldo (update_saldo s1.saldos e idM v).1 e idM = ler_saldo s.saldos e idM + v + v
    rw [ler_saldo_update_self _ e idM v hrow1]
    rw [hs1]
    show ler_saldo (update_saldo s.saldos e idM v).1 e idM + v = ler_saldo s.saldos e idM + v + v
    rw [ler_saldo_update_self _ e idM v hrow]
  · rw [hs1]
    simp

/-- Witness for C8: two deposits of 25 BTC on a fresh pair double up. -/
theorem deposito_sem_taxa_sem_deduplicacao_witness :
    ∃ s1 s2, depositar estado_exemplo "w2" "BTC" 25 = .ok s1 ∧
      buscar_saldo_disponivel s1 "w2" 1 = buscar_saldo_disponivel estado_exemplo "w2" 1 + 25 ∧
      s1.movimentos = estado_exemplo.movimentos ++ [⟨"w2", 1, "DEPOSITO", 25, 0⟩] ∧
      depositar s1 "w2" "BTC" 25 = .ok s2 ∧
      buscar_saldo_disponivel s2 "w2" 1 =
        buscar_saldo_disponivel estado_exemplo "w2" 1 + 25 + 25 ∧
      s2.movimentos = estado_exemplo.movimentos ++
        [⟨"w2", 1, "DEPOSITO", 25, 0⟩, ⟨"w2", 1, "DEPOSITO", 25, 0⟩] :=
  deposito_sem_taxa_sem_deduplicacao estado_exemplo "w2" "BTC" 25 1
    (by decide) (by decide) (by decide) (by decide) (by norm_num)

/-! ### Failure-path characterizations -/

lemma sacar_saldo_insuficiente (cfg : Config) (s : Estado) (e cod : String) (v : ℚ)
    (chave : String) (idM : Nat)
    (hcart : verifica_carteira_existe s e = true)
    (hid : get_id_moeda s cod = some idM) (hid0 : idM ≠ 0)
    (hauth : buscar_hash_privada_ativo s e = some (cfg.sha256 chave))
    (hlt : buscar_saldo_disponivel s e idM < v + v * cfg.TAXA_SAQUE_PERCENTUAL) :
    sacar cfg s e cod v chave =
      .error (.saldo_insuficiente_saque (v + v * cfg.TAXA_SAQUE_PERCENTUAL) v
        (v * cfg.TAXA_SAQUE_PERCENTUAL) (buscar_saldo_disponivel s e idM)) := by
  rw [sacar, if_neg (not_not_intro hcart), hid]
  simp only [if_neg hid0, hauth, ne_eq, not_true_eq_false, if_false,
    if_neg (by simp : ¬ ¬ some (cfg.sha256 chave) = some (cfg.sha256 chave)), if_pos hlt]

lemma converter_saldo_insuficiente (cfg : Config) (s : Estado) (e cO cD : String) (v : ℚ)
    (chave : String) (cot : ℚ) (idO idD : Nat)
    (hO : get_id_moeda s cO = some idO) (hD : get_id_moeda s cD = some idD)
    (h0 : ¬ (idO = 0 ∨ idD = 0)) (hcod : ¬ cO = cD)
    (hbd : buscar_hash_privada_ativo s e = some (cfg.sha256 chave))
    (hbd0 : ¬ cfg.sha256 chave = "")
    (hlt : buscar_saldo_disponivel s e idO < v) :
    converter_moeda cfg s e cO cD v chave cot =
      .error (.saldo_insuficiente_conversao cO v) := by
  rw [converter_moeda, hO, hD]
  simp only [if_neg h0, if_neg hcod, hbd]
  simp only [if_neg hbd0, ne_eq, not_true_eq_false, if_false,
    if_neg (not_not_intro (rfl : cfg.sha256 chave = cfg.sha256 chave)), if_pos hlt]

lemma transferir_saldo_insuficiente (cfg : Config) (s : Estado) (eO eD cod : String) (v : ℚ)
    (chave : String) (idM : Nat)
    (hne : ¬ eO = eD)
    (hid : get_id_moeda s cod = some idM)
    (hcO : verifica_carteira_existe s eO = true)
    (hcD : verifica_carteira_existe s eD = true)
    (hbd : buscar_hash_privada_ativo s eO = some (cfg.sha256 chave))
    (hlt : buscar_saldo_disponivel s eO idM < v + v * cfg.TAXA_TRANSFERENCIA_PERCENTUAL) :
    transferir_moeda cfg s eO eD cod v chave =
      .error (.saldo_insuficiente_transferencia cod
        (v + v * cfg.TAXA_TRANSFERENCIA_PERCENTUAL)) := by
  rw [transferir_moeda, if_neg hne, hid]
  simp only [if_neg (not_not_intro hcO), if_neg (not_not_intro hcD), hbd,
    if_neg (not_not_intro (rfl : cfg.sha256 chave = cfg.sha256 chave)), ne_eq,
    not_true_eq_false, if_false, if_pos hlt]

/-- A raise inside the atomic unit leaves the committed state unchanged. -/
lemma aplicar_op_error (cfg : Config) (s : Estado) (op : Op) (err : Erro)
    (h : exec_op cfg s op = .error err) : aplicar_op cfg s op = s := by
  rw [aplicar_op, h]

/-! ### C5 -/

/-- C5: a withdrawal, conversion or transfer whose checked balance is
below the required debit fails with its insufficient-funds error and the
committed state is unchanged: no balance is altered, no movement row is
appended (the raise happens before any write of the atomic unit, and the
unit rolls back). -/
theorem saldo_insuficiente_falha_sem_alterar_estado
    (cfg : Config) (s : Estado) (e cod : String) (chave : String) (idM : Nat)
    (v vc vt : ℚ) (cO cD : String) (cot : ℚ) (idO idD : Nat) (eD : String)
    (hcart : verifica_carteira_existe s e = true)
    (hid : get_id_moeda s cod = some idM) (hid0 : idM ≠ 0)
    (hauth : buscar_hash_privada_ativo s e = some (cfg.sha256 chave))
    (hlt : buscar_saldo_disponivel s e idM < v + v * cfg.TAXA_SAQUE_PERCENTUAL)
    (hO : get_id_moeda s cO = some idO) (hD : get_id_moeda s cD = some idD)
    (h0 : ¬ (idO = 0 ∨ idD = 0)) (hcod : ¬ cO = cD)
    (hbd0 : ¬ cfg.sha256 chave = "")
    (hltc : buscar_saldo_disponivel s e idO < vc)
    (hne : ¬ e = eD) (hcD : verifica_carteira_existe s eD = true)
    (hltt : buscar_saldo_disponivel s e idM < vt + vt * cfg.TAXA_TRANSFERENCIA_PERCENTUAL) :
    (sacar cfg s e cod v chave =
        .error (.saldo_insuficiente_saque (v + v * cfg.TAXA_SAQUE_PERCENTUAL) v
          (v * cfg.TAXA_SAQUE_PERCENTUAL) (buscar_saldo_disponivel s e idM)) ∧
      aplicar_op cfg s (.sacar e cod v chave) = s) ∧
    (converter_moeda cfg s e cO cD vc chave cot =
        .error (.saldo_insuficiente_conversao cO vc) ∧
      aplicar_op cfg s (.converter e cO cD vc chave cot) = s) ∧
    (transferir_moeda cfg s e eD cod vt chave =
        .error (.saldo_insuficiente_transferencia cod
          (vt + vt * cfg.TAXA_TRANSFERENCIA_PERCENTUAL)) ∧
      aplicar_op cfg s (.transferir e eD cod vt chave) = s) := by
  have h1 := sacar_saldo_insuficiente cfg s e cod v chave idM hcart hid hid0 hauth hlt
  have h2 := converter_saldo_insuficiente cfg s e cO cD vc chave cot idO idD hO hD h0 hcod
    hauth hbd0 hltc
  have h3 := transferir_saldo_insuficiente cfg s e eD cod vt chave idM hne hid hcart hcD
    hauth hltt
  exact ⟨⟨h1, aplicar_op_error cfg s _ _ h1⟩, ⟨h2, aplicar_op_error cfg s _ _ h2⟩,
    ⟨h3, aplicar_op_error cfg s _ _ h3⟩⟩

/-- Witness for C5: wallet w1 holds 100 BTC; withdrawing 1000, converting
1000 BTC to ETH and transferring 1000 to w2 all fail with the
insufficient-funds errors and leave the committed state untouched. -/
theorem saldo_insuficiente_falha_sem_alterar_estado_witness :
    (sacar cfg_exemplo estado_exemplo "w1" "BTC" 1000 "k1" =
        .error (.saldo_insuficiente_saque (1000 + 1000 * cfg_exemplo.TAXA_SAQUE_PERCENTUAL) 1000
          (1000 * cfg_exemplo.TAXA_SAQUE_PERCENTUAL)
          (buscar_saldo_disponivel estado_exemplo "w1" 1)) ∧
      aplicar_op cfg_exemplo estado_exemplo (.sacar "w1" "BTC" 1000 "k1") = estado_exemplo) ∧
    (converter_moeda cfg_exemplo estado_exemplo "w1" "BTC" "ETH" 1000 "k1" 2 =
        .error (.saldo_insuficiente_conversao "BTC" 1000) ∧
      aplicar_op cfg_exemplo estado_exemplo (.converter "w1" "BTC" "ETH" 1000 "k1" 2) =
        estado_exemplo) ∧
    (transferir_moeda cfg_exemplo estado_exemplo "w1" "w2" "BTC" 1000 "k1" =
        .error (.saldo_insuficiente_transferencia "BTC"
          (1000 + 1000 * cfg_exemplo.TAXA_TRANSFERENCIA_PERCENTUAL)) ∧
      aplicar_op cfg_exemplo estado_exemplo (.transferir "w1" "w2" "BTC" 1000 "k1") =
        estado_exemplo) :=
  saldo_insuficiente_falha_sem_alterar_estado cfg_exemplo estado_exemplo "w1" "BTC" "k1" 1
    1000 1000 1000 "BTC" "ETH" 2 1 2 "w2"
    (by decide) (by decide) (by decide) (by decide)
    (by have h : buscar_saldo_disponivel estado_exemplo "w1" 1 = 100 := rfl
        rw [h]
        norm_num [cfg_exemplo])
    (by decide) (by decide) (by decide) (by decide) (by decide)
    (by have h : buscar_saldo_disponivel estado_exemplo "w1" 1 = 100 := rfl
        rw [h]
        norm_num)
    (by decide) (by decide)
    (by have h : buscar_saldo_disponivel estado_exemplo "w1" 1 = 100 := rfl
        rw [h]
        norm_num [cfg_exemplo])

/-! ### C6 (corrected: conversion raises two distinct errors for the two
cases, and withdrawal reveals wallet existence through its gate message) -/

/-- C6 counterexample: converting from a missing address fails with the
error whose message reads Carteira inexistente ou bloqueada, while
converting from an existing address with a wrong secret fails with the
error whose message reads Chave privada invalida para a conversao; the
two responses differ, so a caller learns whether the address exists. -/
theorem autenticacao_nao_uniforme_contraexemplo :
    converter_moeda cfg_exemplo estado_exemplo "w9" "BTC" "ETH" 100 "k1" 2 =
      .error .carteira_inexistente_ou_bloqueada ∧
    converter_moeda cfg_exemplo estado_exemplo "w1" "BTC" "ETH" 100 "chave-errada" 2 =
      .error .chave_invalida_conversao ∧
    ¬ (Erro.carteira_inexistente_ou_bloqueada = Erro.chave_invalida_conversao) :=
  ⟨rfl, rfl, by decide⟩

/-- C6 amended: the authentication raise site of sacar uses one uniform
error for missing wallet and wrong secret, but the wallet gate that runs
before authentication already fails a missing or blocked wallet with a
different error that names the address; and converter_moeda raises two
distinct errors, one when the wallet is missing or blocked and another
when the stored digest differs from the digest of the supplied secret.
Hence for both operations the two cases are distinguishable and a caller
can learn from the response whether the address exists. -/
theorem autenticacao_mensagens_distintas
    (cfg : Config) (s : Estado) (cO cD : String) (v vs : ℚ) (chave : String) (cot : ℚ)
    (idO idD : Nat) (e1 e2 : String) (hbd : String) (codM : String) (idM : Nat)
    (hO : get_id_moeda s cO = some idO) (hD : get_id_moeda s cD = some idD)
    (h0 : ¬ (idO = 0 ∨ idD = 0)) (hcod : ¬ cO = cD)
    (h1 : buscar_hash_privada_ativo s e1 = none)
    (h2 : buscar_hash_privada_ativo s e2 = some hbd) (h2ne : ¬ hbd = "")
    (h2k : ¬ cfg.sha256 chave = hbd)
    (hid : get_id_moeda s codM = some idM) (hid0 : idM ≠ 0)
    (hc1 : verifica_carteira_existe s e1 = false)
    (hc2 : verifica_carteira_existe s e2 = true) :
    converter_moeda cfg s e1 cO cD v chave cot =
      .error .carteira_inexistente_ou_bloqueada ∧
    converter_moeda cfg s e2 cO cD v chave cot = .error .chave_invalida_conversao ∧
    ¬ (Erro.carteira_inexistente_ou_bloqueada = Erro.chave_invalida_conversao) ∧
    sacar cfg s e1 codM vs chave = .error (.carteira_nao_encontrada_ou_inativa e1) ∧
    sacar cfg s e2 codM vs chave = .error .chave_invalida_ou_carteira_nao_encontrada ∧
    ¬ (Erro.carteira_nao_encontrada_ou_inativa e1 =
        Erro.chave_invalida_ou_carteira_nao_encontrada) := by
  refine ⟨?_, ?_, fun h => Erro.noConfusion h, ?_, ?_, fun h => Erro.noConfusion h⟩
  · rw [converter_moeda, hO, hD]
    simp only [if_neg h0, if_neg hcod, h1]
  · rw [converter_moeda, hO, hD]
    simp only [if_neg h0, if_neg hcod, h2, if_neg h2ne]
    simp only [ne_eq, h2k, not_false_eq_true, if_true]
  · rw [sacar, if_pos (by rw [hc1]; exact Bool.false_ne_true)]
  · rw [sacar, if_neg (not_not_intro hc2), hid]
    have hne : buscar_hash_privada_ativo s e2 ≠ some (cfg.sha256 chave) := by
      rw [h2]
      intro hcon
      injection hcon with hcon2
      exact h2k hcon2.symm
    simp only [if_neg hid0, if_pos hne]

/-- Witness for the amended C6: in the example state, address w9 does not
exist and w1 exists with digest k1; the four failures evaluate to the four
distinct errors. -/
theorem autenticacao_mensagens_distintas_witness :
    converter_moeda cfg_exemplo estado_exemplo "w9" "BTC" "ETH" 100 "chave-errada" 2 =
      .error .carteira_inexistente_ou_bloqueada ∧
    converter_moeda cfg_exemplo estado_exemplo "w1" "BTC" "ETH" 100 "chave-errada" 2 =
      .error .chave_invalida_conversao ∧
    ¬ (Erro.carteira_inexistente_ou_bloqueada = Erro.chave_invalida_conversao) ∧
    sacar cfg_exemplo estado_exemplo "w9" "BTC" 10 "chave-errada" =
      .error (.carteira_nao_encontrada_ou_inativa "w9") ∧
    sacar cfg_exemplo estado_exemplo "w1" "BTC" 10 "chave-errada" =
      .error .chave_invalida_ou_carteira_nao_encontrada ∧
    ¬ (Erro.carteira_nao_encontrada_ou_inativa "w9" =
        Erro.chave_invalida_ou_carteira_nao_encontrada) :=
  autenticacao_mensagens_distintas cfg_exemplo estado_exemplo "BTC" "ETH" 100 10
    "chave-errada" 2 1 2 "w9" "w1" "k1" "BTC" 1
    (by decide) (by decide) (by decide) (by decide) (by decide) (by decide) (by decide)
    (by decide) (by decide) (by decide) (by decide) (by decide)

/-! ### C7 -/

/-- One active wallet holding a of currency A (id 1) and 0 of currency B
(id 2), with the digest of the secret k stored. -/
def estado_c7 (cfg : Config) (a : ℚ) : Estado :=
  { carteiras := [⟨"w", cfg.sha256 "k", "ATIVA"⟩]
    moedas := [⟨1, "A"⟩, ⟨2, "B"⟩]
    saldos := [⟨"w", 1, a⟩, ⟨"w", 2, 0⟩]
    movimentos := []
    conversoes := []
    transferencias := [] }

/-- C7: converting a > 0 from A to B at rate r > 0 with conversion fee
rate f, 0 < f < 1, and then converting the whole credited amount back at
the reciprocal rate 1/r with the same fee rate, leaves a * (1 - f)^2 in
A, strictly less than a: the round trip is not the identity because the
fee compounds twice. -/
theorem conversao_ida_volta_perde_taxa (cfg : Config) (a r : ℚ)
    (ha : 0 < a) (hf0 : 0 < cfg.TAXA_CONVERSAO_PERCENTUAL)
    (hf1 : cfg.TAXA_CONVERSAO_PERCENTUAL < 1) (hr : 0 < r)
    (hk : ¬ cfg.sha256 "k" = "") :
    ∃ s1 s2,
      converter_moeda cfg (estado_c7 cfg a) "w" "A" "B" a "k" r = .ok s1 ∧
      buscar_saldo_disponivel s1 "w" 2 = (a - a * cfg.TAXA_CONVERSAO_PERCENTUAL) * r ∧
      converter_moeda cfg s1 "w" "B" "A"
        ((a - a * cfg.TAXA_CONVERSAO_PERCENTUAL) * r) "k" (1/r) = .ok s2 ∧
      buscar_saldo_disponivel s2 "w" 1 = a * (1 - cfg.TAXA_CONVERSAO_PERCENTUAL) ^ 2 ∧
      a * (1 - cfg.TAXA_CONVERSAO_PERCENTUAL) ^ 2 < a := by
  have hrne : r ≠ 0 := ne_of_gt hr
  have hls1 : ler_saldo (estado_c7 cfg a).saldos "w" 1 = a := rfl
  have hls2 : ler_saldo (estado_c7 cfg a).saldos "w" 2 = 0 := rfl
  have ht1 : tem_linha (estado_c7 cfg a).saldos "w" 1 = true := rfl
  have ht2 : tem_linha (estado_c7 cfg a).saldos "w" 2 = true := rfl
  have hne12 : ¬ (("w" : String) = "w" ∧ (1 : Nat) = 2) := by decide
  have hne21 : ¬ (("w" : String) = "w" ∧ (2 : Nat) = 1) := by decide
  have h1 := converter_spec cfg (estado_c7 cfg a) "w" "A" "B" a "k" r 1 2 rfl rfl
    (by decide) (by decide) rfl hk (le_of_eq hls1.symm)
  have hB : ler_saldo (update_saldo (update_saldo (estado_c7 cfg a).saldos "w" 1 (-a)).1
      "w" 2 ((a - a * cfg.TAXA_CONVERSAO_PERCENTUAL) * r)).1 "w" 2 =
      (a - a * cfg.TAXA_CONVERSAO_PERCENTUAL) * r := by
    rw [ler_saldo_update_self _ "w" 2 _ (by rw [tem_linha_update]; exact ht2),
      ler_saldo_update_other _ "w" 1 (-a) "w" 2 hne21, hls2, zero_add]
  have h2 := converter_spec cfg
    { estado_c7 cfg a with
      conversoes := (estado_c7 cfg a).conversoes ++
        [⟨"w", 1, 2, a, (a - a * cfg.TAXA_CONVERSAO_PERCENTUAL) * r,
          cfg.TAXA_CONVERSAO_PERCENTUAL, a * cfg.TAXA_CONVERSAO_PERCENTUAL, r⟩],
      saldos := (update_saldo (update_saldo (estado_c7 cfg a).saldos "w" 1 (-a)).1 "w" 2
        ((a - a * cfg.TAXA_CONVERSAO_PERCENTUAL) * r)).1 }
    "w" "B" "A" ((a - a * cfg.TAXA_CONVERSAO_PERCENTUAL) * r) "k" (1/r) 2 1
    rfl rfl (by decide) (by decide) rfl hk (le_of_eq hB.symm)
  have hfinal : ler_saldo (update_saldo (update_saldo
      (update_saldo (update_saldo (estado_c7 cfg a).saldos "w" 1 (-a)).1
        "w" 2 ((a - a * cfg.TAXA_CONVERSAO_PERCENTUAL) * r)).1
      "w" 2 (-((a - a * cfg.TAXA_CONVERSAO_PERCENTUAL) * r))).1
      "w" 1 (((a - a * cfg.TAXA_CONVERSAO_PERCENTUAL) * r -
        ((a - a * cfg.TAXA_CONVERSAO_PERCENTUAL) * r) * cfg.TAXA_CONVERSAO_PERCENTUAL) *
        (1/r))).1 "w" 1 = a * (1 - cfg.TAXA_CONVERSAO_PERCENTUAL) ^ 2 := by
    rw [ler_saldo_update_self _ "w" 1 _
        (by rw [tem_linha_update, tem_linha_update, tem_linha_update]; exact ht1),
      ler_saldo_update_other _ "w" 2 _ "w" 1 hne12,
      ler_saldo_update_other _ "w" 2 _ "w" 1 hne12,
      ler_saldo_update_self _ "w" 1 (-a) ht1, hls1]
    field_simp
    ring
  have hlt : a * (1 - cfg.TAXA_CONVERSAO_PERCENTUAL) ^ 2 < a := by
    have hpos : 0 < a * cfg.TAXA_CONVERSAO_PERCENTUAL * (2 - cfg.TAXA_CONVERSAO_PERCENTUAL) :=
      mul_pos (mul_pos ha hf0) (by linarith)
    nlinarith [hpos]
  exact ⟨_, _, h1, hB, h2, hfinal, hlt⟩

/-- Witness for C7: a = 100 at fee rate 0.02 and rate 2 comes back as
100 * 0.98 * 0.98 = 96.04 < 100. -/
theorem conversao_ida_volta_perde_taxa_witness :
    ∃ s1 s2,
      converter_moeda cfg_exemplo (estado_c7 cfg_exemplo 100) "w" "A" "B" 100 "k" 2 = .ok s1 ∧
      buscar_saldo_disponivel s1 "w" 2 =
        (100 - 100 * cfg_exemplo.TAXA_CONVERSAO_PERCENTUAL) * 2 ∧
      converter_moeda cfg_exemplo s1 "w" "B" "A"
        ((100 - 100 * cfg_exemplo.TAXA_CONVERSAO_PERCENTUAL) * 2) "k" (1/2) = .ok s2 ∧
      buscar_saldo_disponivel s2 "w" 1 =
        100 * (1 - cfg_exemplo.TAXA_CONVERSAO_PERCENTUAL) ^ 2 ∧
      100 * (1 - cfg_exemplo.TAXA_CONVERSAO_PERCENTUAL) ^ 2 < 100 :=
  conversao_ida_volta_perde_taxa cfg_exemplo 100 2 (by norm_num)
    (by norm_num : (0:ℚ) < 1/50) (by norm_num : (1:ℚ)/50 < 1) (by norm_num) (by decide)

/-! ### C10 -/

/-- A pair without a row reads as zero. -/
lemma ler_saldo_eq_zero (rows : List SaldoRow) (e : String) (idM : Nat)
    (h : tem_linha rows e idM = false) : ler_saldo rows e idM = 0 := by
  rcases hfind : rows.find? (mesma_chave e idM) with _ | r
  · rw [ler_saldo, hfind]
    rfl
  · rw [tem_linha, hfind] at h
    cases h

lemma transferir_falha_destino (cfg : Config) (s : Estado) (eO eD cod : String) (v : ℚ)
    (chave : String) (idM : Nat)
    (hne : ¬ eO = eD)
    (hid : get_id_moeda s cod = some idM)
    (hcO : verifica_carteira_existe s eO = true)
    (hcD : verifica_carteira_existe s eD = true)
    (hbd : buscar_hash_privada_ativo s eO = some (cfg.sha256 chave))
    (hsaldo : v + v * cfg.TAXA_TRANSFERENCIA_PERCENTUAL ≤ buscar_saldo_disponivel s eO idM)
    (hrowO : tem_linha s.saldos eO idM = true)
    (hrowD : tem_linha s.saldos eD idM = false) :
    transferir_moeda cfg s eO eD cod v chave = .error (.falha_creditar_destino eD) := by
  rw [transferir_moeda, if_neg hne, hid]
  simp only [if_neg (not_not_intro hcO), if_neg (not_not_intro hcD), hbd,
    if_neg (not_not_intro (rfl : cfg.sha256 chave = cfg.sha256 chave)), ne_eq,
    not_true_eq_false, if_false, if_neg (not_lt.mpr hsaldo)]
  exact registrar_transf_falha_destino s eO eD idM _ _ _ hrowO hrowD

/-- C10: the conversion repository verifies no row count: when the
destination pair (address, currency_to) has no SALDO_CARTEIRA row, the
conversion still commits, the source balance is debited by valor_origem,
and the credit matches zero rows and is silently lost (the destination
pair still has no row and still reads 0).  Under the analogous missing
destination row, the transfer repository raises instead and the whole
transfer unit aborts with the committed state unchanged. -/
theorem conversao_ignora_rowcount_credito_perdido
    (cfg : Config) (s : Estado) (e cO cD : String) (v : ℚ) (chave : String) (cot : ℚ)
    (idO idD : Nat)
    (hO : get_id_moeda s cO = some idO) (hD : get_id_moeda s cD = some idD)
    (h0 : ¬ (idO = 0 ∨ idD = 0)) (hcod : ¬ cO = cD) (hidne : ¬ idO = idD)
    (hbd : buscar_hash_privada_ativo s e = some (cfg.sha256 chave))
    (hbd0 : ¬ cfg.sha256 chave = "")
    (hv : 0 < v)
    (hsaldo : v ≤ buscar_saldo_disponivel s e idO)
    (hrowD : tem_linha s.saldos e idD = false)
    (eD codM : String) (idM : Nat) (vt : ℚ)
    (hneT : ¬ e = eD) (hidT : get_id_moeda s codM = some idM)
    (hcOT : verifica_carteira_existe s e = true)
    (hcDT : verifica_carteira_existe s eD = true)
    (hsaldoT : vt + vt * cfg.TAXA_TRANSFERENCIA_PERCENTUAL ≤ buscar_saldo_disponivel s e idM)
    (hrowOT : tem_linha s.saldos e idM = true)
    (hrowDT : tem_linha s.saldos eD idM = false) :
    (∃ s2, converter_moeda cfg s e cO cD v chave cot = .ok s2 ∧
      buscar_saldo_disponivel s2 e idO = buscar_saldo_disponivel s e idO - v ∧
      tem_linha s2.saldos e idD = false ∧
      buscar_saldo_disponivel s2 e idD = 0) ∧
    (transferir_moeda cfg s e eD codM vt chave = .error (.falha_creditar_destino eD) ∧
      aplicar_op cfg s (.transferir e eD codM vt chave) = s) := by
  have hrowO : tem_linha s.saldos e idO = true :=
    tem_linha_of_pos s.saldos e idO (lt_of_lt_of_le hv hsaldo)
  have htransf := transferir_falha_destino cfg s e eD codM vt chave idM hneT hidT hcOT hcDT
    hbd hsaldoT hrowOT hrowDT
  refine ⟨⟨_, converter_spec cfg s e cO cD v chave cot idO idD hO hD h0 hcod hbd hbd0 hsaldo,
      ?_, ?_, ?_⟩, htransf, aplicar_op_error cfg s _ _ htransf⟩
  · show ler_saldo (update_saldo (update_saldo s.saldos e idO (-v)).1 e idD
      ((v - v * cfg.TAXA_CONVERSAO_PERCENTUAL) * cot)).1 e idO = ler_saldo s.saldos e idO - v
    rw [ler_saldo_update_other _ e idD _ e idO (fun h => hidne h.2),
      ler_saldo_update_self _ e idO (-v) hrowO]
    ring
  · show tem_linha (update_saldo (update_saldo s.saldos e idO (-v)).1 e idD
      ((v - v * cfg.TAXA_CONVERSAO_PERCENTUAL) * cot)).1 e idD = false
    rw [tem_linha_update, tem_linha_update]
    exact hrowD
  · show ler_saldo (update_saldo (update_saldo s.saldos e idO (-v)).1 e idD
      ((v - v * cfg.TAXA_CONVERSAO_PERCENTUAL) * cot)).1 e idD = 0
    apply ler_saldo_eq_zero
    rw [tem_linha_update, tem_linha_update]
    exact hrowD

/-- Wallets w1 and w2 over currencies BTC and ETH, but with a single
balance row: w1 holds 100 BTC; the rows (w1, ETH), (w2, BTC) and
(w2, ETH) were never initialized. -/
def estado_c10 : Estado :=
  { carteiras := [⟨"w1", "k1", "ATIVA"⟩, ⟨"w2", "k2", "ATIVA"⟩]
    moedas := [⟨1, "BTC"⟩, ⟨2, "ETH"⟩]
    saldos := [⟨"w1", 1, 100⟩]
    movimentos := []
    conversoes := []
    transferencias := [] }

/-- Witness for C10: converting 100 BTC to ETH for w1 commits, debits the
100 BTC and loses the ETH credit (no ETH row appears), while a transfer
of 10 BTC from w1 to w2 aborts because the destination row is missing. -/
theorem conversao_ignora_rowcount_credito_perdido_witness :
    (∃ s2, converter_moeda cfg_exemplo estado_c10 "w1" "BTC" "ETH" 100 "k1" 2 = .ok s2 ∧
      buscar_saldo_disponivel s2 "w1" 1 = buscar_saldo_disponivel estado_c10 "w1" 1 - 100 ∧
      tem_linha s2.saldos "w1" 2 = false ∧
      buscar_saldo_disponivel s2 "w1" 2 = 0) ∧
    (transferir_moeda cfg_exemplo estado_c10 "w1" "w2" "BTC" 10 "k1" =
        .error (.falha_creditar_destino "w2") ∧
      aplicar_op cfg_exemplo estado_c10 (.transferir "w1" "w2" "BTC" 10 "k1") = estado_c10) :=
  conversao_ignora_rowcount_credito_perdido cfg_exemplo estado_c10 "w1" "BTC" "ETH" 100 "k1" 2
    1 2 (by decide) (by decide) (by decide) (by decide) (by decide) (by decide) (by decide)
    (by norm_num)
    (by have h : buscar_saldo_disponivel estado_c10 "w1" 1 = 100 := rfl
        rw [h])
    (by decide) "w2" "BTC" 1 10 (by decide) (by decide) (by decide) (by decide)
    (by have h : buscar_saldo_disponivel estado_c10 "w1" 1 = 100 := rfl
        rw [h]
        norm_num [cfg_exemplo])
    (by decide) (by decide)

/-! ### C4: machinery -/

/-- Every stored balance is non-negative. -/
def SaldosNaoNegativos (s : Estado) : Prop := ∀ r ∈ s.saldos, 0 ≤ r.saldo

/-- The SALDO_CARTEIRA keys are pairwise distinct (its primary key). -/
def ChavesDistintas (rows : List SaldoRow) : Prop := (rows.map chave_saldo).Nodup

/-- Every balance row belongs to a created wallet. -/
def Pertencem (carteiras : List Carteira) (rows : List SaldoRow) : Prop :=
  ∀ r ∈ rows, ∃ c ∈ carteiras, c.endereco_carteira = r.endereco_carteira

/-- Structural well-formedness maintained by the schema and by wallet
creation: distinct balance keys, distinct currency ids, and balance rows
only for created wallets. -/
def BomEstado (s : Estado) : Prop :=
  ChavesDistintas s.saldos ∧ (s.moedas.map Moeda.id_moeda).Nodup ∧
    Pertencem s.carteiras s.saldos

/-- The validated request shapes the engine trusts (spec section 6):
every operation amount is positive, and a conversion rate obtained from
the quote provider is non-negative. -/
def OpValida : Op → Prop
  | .criar _ _ => True
  | .depositar _ _ v => 0 < v
  | .sacar _ _ v _ => 0 < v
  | .converter _ _ _ v _ cot => 0 < v ∧ 0 ≤ cot
  | .transferir _ _ _ v _ => 0 < v

lemma update_saldo_enderecos (rows : List SaldoRow) (e : String) (idM : Nat) (δ : ℚ) :
    ∀ r2 ∈ (update_saldo rows e idM δ).1,
      ∃ r ∈ rows, r2.endereco_carteira = r.endereco_carteira := by
  intro r2 hr2
  rw [update_saldo_fst] at hr2
  rcases List.mem_map.1 hr2 with ⟨r, hr, rfl⟩
  refine ⟨r, hr, ?_⟩
  by_cases hm : mesma_chave e idM r = true
  · rw [patch_saldo, if_pos hm]
  · rw [patch_neg _ _ _ _ hm]

lemma chaves_distintas_update (rows : List SaldoRow) (e : String) (idM : Nat) (δ : ℚ)
    (h : ChavesDistintas rows) : ChavesDistintas (update_saldo rows e idM δ).1 := by
  rw [ChavesDistintas, update_saldo_map_chave]
  exact h

lemma pertencem_update (cs : List Carteira) (rows : List SaldoRow) (e : String) (idM : Nat)
    (δ : ℚ) (h : Pertencem cs rows) : Pertencem cs (update_saldo rows e idM δ).1 := by
  intro r2 hr2
  rcases update_saldo_enderecos rows e idM δ r2 hr2 with ⟨r, hr, he⟩
  rcases h r hr with ⟨c, hcmem, hce⟩
  exact ⟨c, hcmem, by rw [he]; exact hce⟩

/-! Success inversions of the operations, extracting the state shape and
the balance guard that held. -/

lemma registrar_mov_ok_inv (s : Estado) (e : String) (idM : Nat) (v t : ℚ) (tp : String)
    (vop : ℚ) (s2 : Estado)
    (h : registrar_movimento_e_atualizar_saldo s e idM v t tp vop = .ok s2) :
    s2.saldos = (update_saldo s.saldos e idM vop).1 ∧ s2.carteiras = s.carteiras ∧
      s2.moedas = s.moedas := by
  simp only [registrar_movimento_e_atualizar_saldo] at h
  split at h
  · exact Except.noConfusion h
  · injection h with h2
    subst h2
    exact ⟨rfl, rfl, rfl⟩

lemma depositar_ok_inv (s : Estado) (e cod : String) (v : ℚ) (s2 : Estado)
    (h : depositar s e cod v = .ok s2) :
    ∃ idM, s2.saldos = (update_saldo s.saldos e idM v).1 ∧
      s2.carteiras = s.carteiras ∧ s2.moedas = s.moedas := by
  simp only [depositar] at h
  split at h
  · exact Except.noConfusion h
  split at h
  · exact Except.noConfusion h
  next idM heq =>
    split at h
    · exact Except.noConfusion h
    · exact ⟨idM, registrar_mov_ok_inv s e idM v 0 "DEPOSITO" v s2 h⟩

lemma sacar_ok_inv (cfg : Config) (s : Estado) (e cod : String) (v : ℚ) (chave : String)
    (s2 : Estado) (h : sacar cfg s e cod v chave = .ok s2) :
    ∃ idM, v + v * cfg.TAXA_SAQUE_PERCENTUAL ≤ buscar_saldo_disponivel s e idM ∧
      s2.saldos = (update_saldo s.saldos e idM (-(v + v * cfg.TAXA_SAQUE_PERCENTUAL))).1 ∧
      s2.carteiras = s.carteiras ∧ s2.moedas = s.moedas := by
  simp only [sacar] at h
  split at h
  · exact Except.noConfusion h
  split at h
  · exact Except.noConfusion h
  next idM heq =>
    split at h
    · exact Except.noConfusion h
    split at h
    · exact Except.noConfusion h
    split at h
    · exact Except.noConfusion h
    next hsaldo =>
      exact ⟨idM, not_lt.1 hsaldo,
        registrar_mov_ok_inv s e idM v _ "SAQUE" _ s2 h⟩

lemma converter_ok_inv (cfg : Config) (s : Estado) (e cO cD : String) (v : ℚ)
    (chave : String) (cot : ℚ) (s2 : Estado)
    (h : converter_moeda cfg s e cO cD v chave cot = .ok s2) :
    ∃ idO idD, v ≤ buscar_saldo_disponivel s e idO ∧
      s2.saldos = (update_saldo (update_saldo s.saldos e idO (-v)).1 e idD
        ((v - v * cfg.TAXA_CONVERSAO_PERCENTUAL) * cot)).1 ∧
      s2.carteiras = s.carteiras ∧ s2.moedas = s.moedas := by
  simp only [converter_moeda] at h
  split at h
  next idO idD _ _ =>
    split at h
    · exact Except.noConfusion h
    split at h
    · exact Except.noConfusion h
    split at h
    · exact Except.noConfusion h
    next hbd2 =>
      split at h
      · exact Except.noConfusion h
      split at h
      · exact Except.noConfusion h
      split at h
      · exact Except.noConfusion h
      next hsaldo =>
        simp only [registrar_conversao_e_atualizar_saldos] at h
        injection h with h2
        subst h2
        exact ⟨idO, idD, not_lt.1 hsaldo, rfl, rfl, rfl⟩
  · exact Except.noConfusion h

lemma registrar_transf_ok_inv (s : Estado) (eO eD : String) (idM : Nat) (vt vl tv : ℚ)
    (s2 : Estado)
    (h : registrar_transferencia_e_atualizar_saldos s eO eD idM vt vl tv = .ok s2) :
    s2.saldos = (update_saldo (update_saldo s.saldos eO idM (-vt)).1 eD idM vl).1 ∧
      s2.carteiras = s.carteiras ∧ s2.moedas = s.moedas := by
  simp only [registrar_transferencia_e_atualizar_saldos] at h
  split at h
  · exact Except.noConfusion h
  split at h
  · exact Except.noConfusion h
  injection h with h2
  subst h2
  exact ⟨rfl, rfl, rfl⟩

lemma transferir_ok_inv (cfg : Config) (s : Estado) (eO eD cod : String) (v : ℚ)
    (chave : String) (s2 : Estado)
    (h : transferir_moeda cfg s eO eD cod v chave = .ok s2) :
    ∃ idM, v + v * cfg.TAXA_TRANSFERENCIA_PERCENTUAL ≤ buscar_saldo_disponivel s eO idM ∧
      s2.saldos = (update_saldo (update_saldo s.saldos eO idM
        (-(v + v * cfg.TAXA_TRANSFERENCIA_PERCENTUAL))).1 eD idM v).1 ∧
      s2.carteiras = s.carteiras ∧ s2.moedas = s.moedas := by
  simp only [transferir_moeda] at h
  split at h
  · exact Except.noConfusion h
  split at h
  · exact Except.noConfusion h
  next idM heq =>
    split at h
    · exact Except.noConfusion h
    split at h
    · exact Except.noConfusion h
    split at h
    · exact Except.noConfusion h
    split at h
    · exact Except.noConfusion h
    split at h
    · exact Except.noConfusion h
    next hsaldo =>
      exact ⟨idM, not_lt.1 hsaldo, registrar_transf_ok_inv s eO eD idM _ _ _ s2 h⟩

lemma criar_ok_inv (s : Estado) (e hp : String) (s2 : Estado)
    (h : criar_e_inicializar s e hp = .ok s2) :
    s2.saldos = s.saldos ++ s.moedas.map (fun m => ⟨e, m.id_moeda, 0⟩) ∧
      s2.carteiras = s.carteiras ++ [⟨e, hp, "ATIVA"⟩] ∧
      s2.moedas = s.moedas ∧
      s.carteiras.any (fun c => decide (c.endereco_carteira = e)) = false := by
  simp only [criar_e_inicializar] at h
  split at h
  · exact Except.noConfusion h
  next hnotany =>
    injection h with h2
    subst h2
    refine ⟨rfl, rfl, rfl, ?_⟩
    cases hany : s.carteiras.any (fun c => decide (c.endereco_carteira = e))
    · rfl
    · exact absurd hany hnotany

lemma bom_estado_shift (s s2 : Estado) (rows2 : List SaldoRow)
    (hs : s2.saldos = rows2) (hc : s2.carteiras = s.carteiras) (hm : s2.moedas = s.moedas)
    (hb : BomEstado s)
    (hch : ChavesDistintas rows2) (hpe : Pertencem s.carteiras rows2) : BomEstado s2 := by
  refine ⟨by rw [hs]; exact hch, by rw [hm]; exact hb.2.1, ?_⟩
  intro r hr
  rw [hs] at hr
  rcases hpe r hr with ⟨c, hcm, hce⟩
  exact ⟨c, by rw [hc]; exact hcm, hce⟩

/-- One committed operation preserves well-formedness and keeps every
balance non-negative, for validated requests and a conversion fee rate
of at most 1. -/
lemma aplicar_op_preserva (cfg : Config) (hf : cfg.TAXA_CONVERSAO_PERCENTUAL ≤ 1)
    (s : Estado) (op : Op) (hop : OpValida op)
    (hb : BomEstado s) (hn : SaldosNaoNegativos s) :
    BomEstado (aplicar_op cfg s op) ∧ SaldosNaoNegativos (aplicar_op cfg s op) := by
  rcases hexec : exec_op cfg s op with err | s2
  · rw [aplicar_op, hexec]
    exact ⟨hb, hn⟩
  rw [aplicar_op, hexec]
  cases op with
  | criar e hp =>
    simp only [exec_op] at hexec
    rcases criar_ok_inv s e hp s2 hexec with ⟨hs, hc, hm, hany⟩
    have hno : ∀ c ∈ s.carteiras, ¬ c.endereco_carteira = e := by
      intro c hcm hcE
      have htrue : s.carteiras.any (fun c => decide (c.endereco_carteira = e)) = true :=
        List.any_eq_true.2 ⟨c, hcm, by simp [hcE]⟩
      rw [hany] at htrue
      cases htrue
    have hnovas : (s.moedas.map (fun m => (⟨e, m.id_moeda, 0⟩ : SaldoRow))).map chave_saldo =
        (s.moedas.map Moeda.id_moeda).map (fun i => (e, i)) := by
      rw [List.map_map, List.map_map]
      rfl
    refine ⟨⟨?_, by rw [hm]; exact hb.2.1, ?_⟩, ?_⟩
    · rw [ChavesDistintas, hs, List.map_append, List.nodup_append, hnovas]
      refine ⟨hb.1, ?_, ?_⟩
      · exact hb.2.1.map (fun a b hab => by simpa using congrArg Prod.snd hab)
      · intro k hk1 hk2
        rcases List.mem_map.1 hk1 with ⟨r, hr, rfl⟩
        rcases List.mem_map.1 hk2 with ⟨i, _, hki⟩
        rcases hb.2.2 r hr with ⟨c, hcm, hce⟩
        have : r.endereco_carteira = e := by
          have := congrArg Prod.fst hki
          simpa [chave_saldo] using this.symm
        exact hno c hcm (by rw [hce, this])
    · intro r hr
      rw [hs] at hr
      rcases List.mem_append.1 hr with hold | hnew
      · rcases hb.2.2 r hold with ⟨c, hcm, hce⟩
        exact ⟨c, by rw [hc]; exact List.mem_append_left _ hcm, hce⟩
      · rcases List.mem_map.1 hnew with ⟨m, _, rfl⟩
        exact ⟨⟨e, hp, "ATIVA"⟩, by rw [hc]; exact List.mem_append_right _ (by simp), rfl⟩
    · intro r hr
      rw [hs] at hr
      rcases List.mem_append.1 hr with hold | hnew
      · exact hn r hold
      · rcases List.mem_map.1 hnew with ⟨m, _, rfl⟩
        exact le_refl 0
  | depositar e cod v =>
    simp only [OpValida] at hop
    simp only [exec_op] at hexec
    rcases depositar_ok_inv s e cod v s2 hexec with ⟨idM, hs, hc, hm⟩
    refine ⟨bom_estado_shift s s2 _ hs hc hm hb
      (chaves_distintas_update _ e idM v hb.1)
      (pertencem_update _ _ e idM v hb.2.2), ?_⟩
    intro r hr
    rw [hs] at hr
    exact update_saldo_nonneg_of_delta s.saldos e idM v (le_of_lt hop) hn r hr
  | sacar e cod v chave =>
    simp only [exec_op] at hexec
    rcases sacar_ok_inv cfg s e cod v chave s2 hexec with ⟨idM, hguard, hs, hc, hm⟩
    have heq : buscar_saldo_disponivel s e idM = ler_saldo s.saldos e idM := rfl
    rw [heq] at hguard
    refine ⟨bom_estado_shift s s2 _ hs hc hm hb
      (chaves_distintas_update _ e idM _ hb.1)
      (pertencem_update _ _ e idM _ hb.2.2), ?_⟩
    intro r hr
    rw [hs] at hr
    exact update_saldo_nonneg s.saldos e idM _ hb.1 hn (by linarith) r hr
  | converter e cO cD v chave cot =>
    simp only [OpValida] at hop
    simp only [exec_op] at hexec
    rcases converter_ok_inv cfg s e cO cD v chave cot s2 hexec with ⟨idO, idD, hguard, hs, hc, hm⟩
    have heq : buscar_saldo_disponivel s e idO = ler_saldo s.saldos e idO := rfl
    rw [heq] at hguard
    have hn1 : ∀ r ∈ (update_saldo s.saldos e idO (-v)).1, 0 ≤ r.saldo :=
      update_saldo_nonneg s.saldos e idO (-v) hb.1 hn (by linarith)
    have hδ2 : 0 ≤ (v - v * cfg.TAXA_CONVERSAO_PERCENTUAL) * cot := by
      have h1 : 0 ≤ v - v * cfg.TAXA_CONVERSAO_PERCENTUAL := by nlinarith [hop.1, hf]
      exact mul_nonneg h1 hop.2
    refine ⟨bom_estado_shift s s2 _ hs hc hm hb
      (chaves_distintas_update _ e idD _ (chaves_distintas_update _ e idO _ hb.1))
      (pertencem_update _ _ e idD _ (pertencem_update _ _ e idO _ hb.2.2)), ?_⟩
    intro r hr
    rw [hs] at hr
    exact update_saldo_nonneg_of_delta _ e idD _ hδ2 hn1 r hr
  | transferir eO eD cod v chave =>
    simp only [OpValida] at hop
    simp only [exec_op] at hexec
    rcases transferir_ok_inv cfg s eO eD cod v chave s2 hexec with ⟨idM, hguard, hs, hc, hm⟩
    have heq : buscar_saldo_disponivel s eO idM = ler_saldo s.saldos eO idM := rfl
    rw [heq] at hguard
    have hn1 : ∀ r ∈ (update_saldo s.saldos eO idM
        (-(v + v * cfg.TAXA_TRANSFERENCIA_PERCENTUAL))).1, 0 ≤ r.saldo :=
      update_saldo_nonneg s.saldos eO idM _ hb.1 hn (by linarith)
    refine ⟨bom_estado_shift s s2 _ hs hc hm hb
      (chaves_distintas_update _ eD idM _ (chaves_distintas_update _ eO idM _ hb.1))
      (pertencem_update _ _ eD idM _ (pertencem_update _ _ eO idM _ hb.2.2)), ?_⟩
    intro r hr
    rw [hs] at hr
    exact update_saldo_nonneg_of_delta _ eD idM v (le_of_lt hop) hn1 r hr

/-- A whole sequence of committed operations preserves well-formedness
and non-negative balances. -/
lemma aplicar_ops_preserva (cfg : Config) (hf : cfg.TAXA_CONVERSAO_PERCENTUAL ≤ 1)
    (ops : List Op) :
    ∀ s : Estado, (∀ op ∈ ops, OpValida op) → BomEstado s → SaldosNaoNegativos s →
      BomEstado (aplicar_ops cfg s ops) ∧ SaldosNaoNegativos (aplicar_ops cfg s ops) := by
  induction ops with
  | nil =>
    intro s _ hb hn
    exact ⟨hb, hn⟩
  | cons op t ih =>
    intro s hops hb hn
    have h1 := aplicar_op_preserva cfg hf s op (hops op (List.mem_cons_self op t)) hb hn
    have h2 := ih (aplicar_op cfg s op) (fun o ho => hops o (List.mem_cons_of_mem _ ho)) h1.1 h1.2
    exact h2

/-! ### C4 -/

/-- C4: starting from wallet-creation states (every stored balance is
zero and the schema invariants hold), every sequence of committed create,
deposit, withdrawal, conversion and transfer operations with validated
requests (positive amounts, non-negative quotes) and a conversion fee
rate of at most 1 keeps every stored balance non-negative: each debiting
operation checks inside the same unit that the current balance covers the
full debit before applying it, and failed operations roll back. -/
theorem saldos_nunca_negativos (cfg : Config) (hf : cfg.TAXA_CONVERSAO_PERCENTUAL ≤ 1)
    (s0 : Estado) (hb : BomEstado s0) (hz : ∀ r ∈ s0.saldos, r.saldo = 0)
    (ops : List Op) (hops : ∀ op ∈ ops, OpValida op) :
    ∀ r ∈ (aplicar_ops cfg s0 ops).saldos, 0 ≤ r.saldo :=
  (aplicar_ops_preserva cfg hf ops s0 hops hb (fun r hr => le_of_eq (hz r hr).symm)).2

/-- Initial state holding only the pre-populated currency table; wallets
enter through criar operations, which initialize every balance to zero. -/
def estado_inicial : Estado :=
  { carteiras := []
    moedas := [⟨1, "BTC"⟩, ⟨2, "ETH"⟩]
    saldos := []
    movimentos := []
    conversoes := []
    transferencias := [] }

/-- Witness for C4: two wallets created from scratch, then a deposit, a
withdrawal, a conversion and a transfer; every stored balance stays
non-negative. -/
theorem saldos_nunca_negativos_witness :
    ((aplicar_ops cfg_exemplo estado_inicial
      [.criar "w1" "k1", .criar "w2" "k2", .depositar "w1" "BTC" 100,
       .sacar "w1" "BTC" 10 "k1", .converter "w1" "BTC" "ETH" 50 "k1" 2,
       .transferir "w1" "w2" "BTC" 20 "k1"]).saldos.all
        fun r => decide (0 ≤ r.saldo)) = true :=
  List.all_eq_true.2 fun r hr => decide_eq_true
    (saldos_nunca_negativos cfg_exemplo (by norm_num : (1:ℚ)/50 ≤ 1) estado_inicial
      ⟨List.nodup_nil, by decide, fun r2 hr2 => absurd hr2 (by simp [estado_inicial])⟩
      (fun r2 hr2 => absurd hr2 (by simp [estado_inicial]))
      _
      (by
        intro op hop
        fin_cases hop <;> simp [OpValida])
      r hr)

/-! ### C9 -/

/-- Modelled from the spec: the SQL schema (DDL) and the transaction
helper api/persistence/db.py that the repositories rely on are not under
src.  Section 4.3 of the spec requires the Balance Store to expose a
conditional delta update, expressible as a single conditional statement,
that fails (no row matched / constraint violation) instead of silently
applying a delta whose result would be negative.  This definition models
that store primitive at its commit point: the update refuses when the
pair has no row or when the resulting amount would be negative, and
otherwise applies the same row patch as update_saldo. -/
def apply_delta_condicional (rows : List SaldoRow) (endereco : String) (idM : Nat)
    (delta : ℚ) : List SaldoRow × Bool :=
  match rows.find? (mesma_chave endereco idM) with
  | none => (rows, false)
  | some r =>
    if r.saldo + delta < 0 then (rows, false)
    else ((update_saldo rows endereco idM delta).1, true)

/-- The commit points of N concurrent withdrawals racing on the same
pair: the store serializes the conditional row updates, so any
interleaving commits as some sequence of conditional debits; each entry
records whether that withdrawal committed. -/
def aplicar_debitos (rows : List SaldoRow) (endereco : String) (idM : Nat) :
    List ℚ → List SaldoRow × List Bool
  | [] => (rows, [])
  | d :: ds =>
    let passo := apply_delta_condicional rows endereco idM (-d)
    let resto := aplicar_debitos passo.1 endereco idM ds
    (resto.1, passo.2 :: resto.2)

lemma apply_delta_condicional_nonneg (rows : List SaldoRow) (e : String) (idM : Nat)
    (δ : ℚ) (hnd : ChavesDistintas rows) (hn : ∀ r ∈ rows, 0 ≤ r.saldo) :
    (∀ r ∈ (apply_delta_condicional rows e idM δ).1, 0 ≤ r.saldo) ∧
      ChavesDistintas (apply_delta_condicional rows e idM δ).1 := by
  rcases hfind : rows.find? (mesma_chave e idM) with _ | r
  · have happ : apply_delta_condicional rows e idM δ = (rows, false) := by
      rw [apply_delta_condicional, hfind]
    rw [happ]
    exact ⟨hn, hnd⟩
  have happ : apply_delta_condicional rows e idM δ =
      if r.saldo + δ < 0 then (rows, false) else ((update_saldo rows e idM δ).1, true) := by
    rw [apply_delta_condicional, hfind]
  rw [happ]
  by_cases hneg : r.saldo + δ < 0
  · rw [if_pos hneg]
    exact ⟨hn, hnd⟩
  · rw [if_neg hneg]
    refine ⟨?_, chaves_distintas_update rows e idM δ hnd⟩
    have hler : ler_saldo rows e idM = r.saldo := by
      rw [ler_saldo, hfind]
      rfl
    exact update_saldo_nonneg rows e idM δ hnd hn (by rw [hler]; linarith)

/-- C9: with the store enforcing the conditional update, any
serialization of the commit points of concurrent withdrawals on one
(address, currency) pair keeps every stored balance non-negative, no
matter how many debits are requested and in which order they land; and a
debit commits at its turn exactly when the balance it finds still covers
it, so exactly the subset that fits commits and the rest fail. -/
theorem debitos_concorrentes_nunca_negativos (endereco : String) (idM : Nat)
    (pedidos : List ℚ) :
    ∀ rows : List SaldoRow, ChavesDistintas rows → (∀ r ∈ rows, 0 ≤ r.saldo) →
      (∀ r ∈ (aplicar_debitos rows endereco idM pedidos).1, 0 ≤ r.saldo) ∧
      (∀ d : ℚ, (apply_delta_condicional rows endereco idM (-d)).2 = true ↔
        tem_linha rows endereco idM = true ∧ d ≤ ler_saldo rows endereco idM) := by
  induction pedidos with
  | nil =>
    intro rows hnd hn
    refine ⟨hn, ?_⟩
    intro d
    rcases hfind : rows.find? (mesma_chave endereco idM) with _ | r
    · have happ : apply_delta_condicional rows endereco idM (-d) = (rows, false) := by
        rw [apply_delta_condicional, hfind]
      rw [happ]
      simp [tem_linha, hfind]
    · have hler : ler_saldo rows endereco idM = r.saldo := by
        rw [ler_saldo, hfind]
        rfl
      have happ : apply_delta_condicional rows endereco idM (-d) =
          if r.saldo + -d < 0 then (rows, false)
          else ((update_saldo rows endereco idM (-d)).1, true) := by
        rw [apply_delta_condicional, hfind]
      rw [happ]
      by_cases hneg : r.saldo + -d < 0
      · rw [if_pos hneg]
        simp only [tem_linha, hfind, Option.isSome_some, hler, true_and]
        constructor
        · intro hfalse
          cases hfalse
        · intro hle
          exact absurd hneg (by linarith)
      · rw [if_neg hneg]
        simp only [tem_linha, hfind, Option.isSome_some, hler, true_and]
        constructor
        · intro _
          linarith
        · intro _
          trivial
  | cons d ds ih =>
    intro rows hnd hn
    have hstep := apply_delta_condicional_nonneg rows endereco idM (-d) hnd hn
    have hrec := ih (apply_delta_condicional rows endereco idM (-d)).1 hstep.2 hstep.1
    refine ⟨?_, ?_⟩
    · intro r hr
      exact hrec.1 r hr
    · intro d2
      have hbase := (ih rows hnd hn).2 d2
      exact hbase

/-- Witness for C9: three racing withdrawals of 60, 60 and 30 against a
balance of 100; every balance stays non-negative after any serialization
of the three, and at the initial balance a debit of 60 commits exactly
when it still fits. -/
theorem debitos_concorrentes_nunca_negativos_witness :
    ((aplicar_debitos [⟨"w1", 1, 100⟩] "w1" 1 [60, 60, 30]).1.all
      fun r => decide (0 ≤ r.saldo)) = true ∧
    ((apply_delta_condicional [⟨"w1", 1, 100⟩] "w1" 1 (-60)).2 = true ↔
      tem_linha [⟨"w1", 1, 100⟩] "w1" 1 = true ∧
        (60 : ℚ) ≤ ler_saldo [⟨"w1", 1, 100⟩] "w1" 1) :=
  ⟨List.all_eq_true.2 fun r hr => decide_eq_true
    ((debitos_concorrentes_nunca_negativos "w1" 1 [60, 60, 30] [⟨"w1", 1, 100⟩]
      (by unfold ChavesDistintas; decide) (by norm_num)).1 r hr),
   (debitos_concorrentes_nunca_negativos "w1" 1 [60, 60, 30] [⟨"w1", 1, 100⟩]
      (by unfold ChavesDistintas; decide) (by norm_num)).2 60⟩

end ProjetoBanco
